import Mathlib

set_option maxRecDepth 16000

/-!
Verification development for the Gen-Spider password generation engine
(src/password_generator.py).  Python strings are modelled as `List Char`
(character classification is ASCII, matching the ASCII-only character sets
the engine manipulates), the secure randomness source is modelled as an
explicit tape of natural numbers (`secrets.randbelow n` consumes one tape
value `v` and yields `v % n`, `secrets.choice l` picks `l[v % l.length]`;
every execution of the Python code corresponds to some tape, and every tape
yields a valid execution), Python floats are modelled as exact real/rational
arithmetic, and `raise` is modelled with `Except` / explicit error values.
-/

namespace GenPass

/-- One read from the randomness tape (tape exhaustion yields 0; concrete
executions only use tapes long enough to never exhaust). -/
def consume : List Nat → Nat × List Nat
  | [] => (0, [])
  | v :: t => (v, t)

/-- Model of `secrets.choice(l)`: the tape value `v` selects index `v % len(l)`. -/
def choiceFrom (l : List Char) (v : Nat) : Char := l.getD (v % l.length) (' ')

/-- Model of `secrets.randbelow(n)` for `n > 0`: tape value reduced mod `n`. -/
def randBelow (n v : Nat) : Nat := v % n

/-- ASCII lowercasing, as Python `str.lower()` acts on ASCII characters. -/
def lowerC (c : Char) : Char :=
  if 65 ≤ c.toNat ∧ c.toNat ≤ 90 then Char.ofNat (c.toNat + 32) else c

/-- ASCII test for `c.islower()`. -/
def isLowerC (c : Char) : Bool := 97 ≤ c.toNat && c.toNat ≤ 122

/-- ASCII test for `c.isupper()`. -/
def isUpperC (c : Char) : Bool := 65 ≤ c.toNat && c.toNat ≤ 90

/-- ASCII test for `c.isdigit()`. -/
def isDigitC (c : Char) : Bool := 48 ≤ c.toNat && c.toNat ≤ 57

/-- Model of `password.lower()`. -/
def toLowerStr (s : List Char) : List Char := s.map lowerC

/-- Scan every window of two consecutive characters (used to model regex
searches whose matches span two characters). -/
def scanPairs (p : Char → Char → Bool) : List Char → Bool
  | a :: b :: rest => p a b || scanPairs p (b :: rest)
  | _ => false

/-- Scan every window of three consecutive characters. -/
def scanTriples (p : Char → Char → Char → Bool) : List Char → Bool
  | a :: b :: c :: rest => p a b c || scanTriples p (b :: c :: rest)
  | _ => false

/-- Scan every window of four consecutive characters. -/
def scanQuads (p : Char → Char → Char → Char → Bool) : List Char → Bool
  | a :: b :: c :: d :: rest => p a b c d || scanQuads p (b :: c :: d :: rest)
  | _ => false

/-- `w` occurs as a contiguous substring of `s` (Python `w in s`). -/
def InfixOf (w s : List Char) : Prop := ∃ u v, s = u ++ w ++ v

/-- Boolean prefix test. -/
def startsWith : List Char → List Char → Bool
  | [], _ => true
  | _ :: _, [] => false
  | a :: w, b :: s => a == b && startsWith w s

/-- Boolean substring test, the executable model of Python `w in s`. -/
def substrB (w : List Char) : List Char → Bool
  | [] => decide (w = [])
  | b :: s => startsWith w (b :: s) || substrB w s

theorem startsWith_iff (w : List Char) : ∀ s, startsWith w s = true ↔ ∃ t, s = w ++ t := by
  induction w with
  | nil => intro s; simp [startsWith]
  | cons a w ih =>
    intro s
    cases s with
    | nil => simp [startsWith]
    | cons b s =>
      simp only [startsWith, Bool.and_eq_true, beq_iff_eq, ih s, List.cons_append,
        List.cons.injEq]
      constructor
      · rintro ⟨rfl, t, rfl⟩; exact ⟨t, rfl, rfl⟩
      · rintro ⟨t, rfl, rfl⟩; exact ⟨rfl, t, rfl⟩

theorem substrB_iff (w : List Char) : ∀ s, substrB w s = true ↔ InfixOf w s := by
  intro s
  induction s with
  | nil =>
    simp only [substrB, decide_eq_true_eq, InfixOf]
    constructor
    · rintro rfl; exact ⟨[], [], rfl⟩
    · rintro ⟨u, v, h⟩
      rcases List.append_eq_nil.mp h.symm with ⟨h1, h2⟩
      rcases List.append_eq_nil.mp h1 with ⟨-, h3⟩
      exact h3
  | cons b s ih =>
    simp only [substrB, Bool.or_eq_true, startsWith_iff, ih, InfixOf]
    constructor
    · rintro (⟨t, ht⟩ | ⟨u, v, rfl⟩)
      · exact ⟨[], t, by simpa using ht⟩
      · exact ⟨b :: u, v, rfl⟩
    · rintro ⟨u, v, huv⟩
      cases u with
      | nil => exact Or.inl ⟨v, by simpa using huv⟩
      | cons x u =>
        right
        rcases List.cons.injEq .. ▸ huv with ⟨-, h2⟩
        exact ⟨u, v, by simpa using h2⟩

theorem infixOf_take {w s : List Char} {n : Nat} (h : InfixOf w (s.take n)) : InfixOf w s := by
  rcases h with ⟨u, v, huv⟩
  refine ⟨u, v ++ s.drop n, ?_⟩
  conv_lhs => rw [← List.take_append_drop n s]
  rw [huv]; simp

theorem infixOf_length {w s : List Char} (h : InfixOf w s) : w.length ≤ s.length := by
  rcases h with ⟨u, v, rfl⟩; simp; omega

theorem scanPairs_iff (p : Char → Char → Bool) :
    ∀ s, scanPairs p s = true ↔ ∃ a b, p a b = true ∧ InfixOf [a, b] s
  | [] => by
    simp only [scanPairs]
    constructor
    · simp
    · rintro ⟨a, b, -, h⟩; exact absurd (infixOf_length h) (by simp)
  | [a] => by
    simp only [scanPairs]
    constructor
    · simp
    · rintro ⟨x, y, -, h⟩; exact absurd (infixOf_length h) (by simp)
  | a :: b :: rest => by
    simp only [scanPairs, Bool.or_eq_true, scanPairs_iff p (b :: rest)]
    constructor
    · rintro (hp | ⟨x, y, hp, u, v, huv⟩)
      · exact ⟨a, b, hp, [], rest, rfl⟩
      · exact ⟨x, y, hp, a :: u, v, by simp [huv]⟩
    · rintro ⟨x, y, hp, u, v, huv⟩
      cases u with
      | nil =>
        simp only [List.nil_append, List.cons_append, List.cons.injEq] at huv
        obtain ⟨rfl, rfl, -⟩ := huv
        exact Or.inl hp
      | cons z u =>
        right
        simp only [List.cons_append, List.cons.injEq] at huv
        exact ⟨x, y, hp, u, v, huv.2⟩

theorem scanTriples_iff (p : Char → Char → Char → Bool) :
    ∀ s, scanTriples p s = true ↔ ∃ a b c, p a b c = true ∧ InfixOf [a, b, c] s
  | [] => by
    simp only [scanTriples]
    constructor
    · simp
    · rintro ⟨a, b, c, -, h⟩; exact absurd (infixOf_length h) (by simp)
  | [a] => by
    simp only [scanTriples]
    constructor
    · simp
    · rintro ⟨x, y, z, -, h⟩; exact absurd (infixOf_length h) (by simp)
  | [a, b] => by
    simp only [scanTriples]
    constructor
    · simp
    · rintro ⟨x, y, z, -, h⟩; exact absurd (infixOf_length h) (by simp)
  | a :: b :: c :: rest => by
    simp only [scanTriples, Bool.or_eq_true, scanTriples_iff p (b :: c :: rest)]
    constructor
    · rintro (hp | ⟨x, y, z, hp, u, v, huv⟩)
      · exact ⟨a, b, c, hp, [], rest, rfl⟩
      · exact ⟨x, y, z, hp, a :: u, v, by simp [huv]⟩
    · rintro ⟨x, y, z, hp, u, v, huv⟩
      cases u with
      | nil =>
        simp only [List.nil_append, List.cons_append, List.cons.injEq] at huv
        obtain ⟨rfl, rfl, rfl, -⟩ := huv
        exact Or.inl hp
      | cons t u =>
        right
        simp only [List.cons_append, List.cons.injEq] at huv
        exact ⟨x, y, z, hp, u, v, huv.2⟩

theorem scanQuads_iff (p : Char → Char → Char → Char → Bool) :
    ∀ s, scanQuads p s = true ↔ ∃ a b c d, p a b c d = true ∧ InfixOf [a, b, c, d] s
  | [] => by
    simp only [scanQuads]
    constructor
    · simp
    · rintro ⟨a, b, c, d, -, h⟩; exact absurd (infixOf_length h) (by simp)
  | [a] => by
    simp only [scanQuads]
    constructor
    · simp
    · rintro ⟨x, y, z, t, -, h⟩; exact absurd (infixOf_length h) (by simp)
  | [a, b] => by
    simp only [scanQuads]
    constructor
    · simp
    · rintro ⟨x, y, z, t, -, h⟩; exact absurd (infixOf_length h) (by simp)
  | [a, b, c] => by
    simp only [scanQuads]
    constructor
    · simp
    · rintro ⟨x, y, z, t, -, h⟩; exact absurd (infixOf_length h) (by simp)
  | a :: b :: c :: d :: rest => by
    simp only [scanQuads, Bool.or_eq_true, scanQuads_iff p (b :: c :: d :: rest)]
    constructor
    · rintro (hp | ⟨x, y, z, t, hp, u, v, huv⟩)
      · exact ⟨a, b, c, d, hp, [], rest, rfl⟩
      · exact ⟨x, y, z, t, hp, a :: u, v, by simp [huv]⟩
    · rintro ⟨x, y, z, t, hp, u, v, huv⟩
      cases u with
      | nil =>
        simp only [List.nil_append, List.cons_append, List.cons.injEq] at huv
        obtain ⟨rfl, rfl, rfl, rfl, -⟩ := huv
        exact Or.inl hp
      | cons r u =>
        right
        simp only [List.cons_append, List.cons.injEq] at huv
        exact ⟨x, y, z, t, hp, u, v, huv.2⟩

theorem scanPairs_take {p : Char → Char → Bool} {s : List Char} {n : Nat}
    (h : scanPairs p s = false) : scanPairs p (s.take n) = false := by
  by_contra hc
  rcases (scanPairs_iff p _).mp (Bool.of_not_eq_false hc) with ⟨a, b, hp, hin⟩
  exact absurd ((scanPairs_iff p s).mpr ⟨a, b, hp, infixOf_take hin⟩) (by simp [h])

theorem scanTriples_take {p : Char → Char → Char → Bool} {s : List Char} {n : Nat}
    (h : scanTriples p s = false) : scanTriples p (s.take n) = false := by
  by_contra hc
  rcases (scanTriples_iff p _).mp (Bool.of_not_eq_false hc) with ⟨a, b, c, hp, hin⟩
  exact absurd ((scanTriples_iff p s).mpr ⟨a, b, c, hp, infixOf_take hin⟩) (by simp [h])

theorem scanQuads_take {p : Char → Char → Char → Char → Bool} {s : List Char} {n : Nat}
    (h : scanQuads p s = false) : scanQuads p (s.take n) = false := by
  by_contra hc
  rcases (scanQuads_iff p _).mp (Bool.of_not_eq_false hc) with ⟨a, b, c, d, hp, hin⟩
  exact absurd ((scanQuads_iff p s).mpr ⟨a, b, c, d, hp, infixOf_take hin⟩) (by simp [h])

theorem substrB_take {w s : List Char} {n : Nat}
    (h : substrB w s = false) : substrB w (s.take n) = false := by
  by_contra hc
  exact absurd ((substrB_iff w s).mpr (infixOf_take ((substrB_iff w _).mp
    (Bool.of_not_eq_false hc)))) (by simp [h])

/-- CharacterSet.LOWERCASE. -/
def LOWERCASE : List Char := ("abcdefghijklmnopqrstuvwxyz").data

/-- CharacterSet.UPPERCASE. -/
def UPPERCASE : List Char := ("ABCDEFGHIJKLMNOPQRSTUVWXYZ").data

/-- CharacterSet.DIGITS. -/
def DIGITS : List Char := ("0123456789").data

/-- CharacterSet.SYMBOLS_BASIC. -/
def SYMBOLS_BASIC : List Char := ("!@#$%^&*()").data

/-- CharacterSet.SYMBOLS_EXTENDED (26 characters). -/
def SYMBOLS_EXTENDED : List Char := ("!@#$%^&*()_+-=[]\x7b\x7d|;:,.<>?").data

/-- CharacterSet.AMBIGUOUS. -/
def AMBIGUOUS : List Char := ("0O1lI").data

/-- CharacterSet.SIMILAR. -/
def SIMILAR : List Char := ("il1Lo0O").data

/-- The WEAK_PASSWORDS set of the engine. -/
def WEAK_PASSWORDS : List (List Char) :=
  [("password").data, ("123456").data, ("password123").data, ("admin").data, ("qwerty").data,
   ("letmein").data, ("welcome").data, ("monkey").data, ("1234567890").data, ("abc123").data,
   ("password1").data, ("123456789").data, ("welcome123").data, ("admin123").data]

/-- The passphrase word list of the engine (`WORDLIST`), transcribed verbatim. -/
def WORDLIST : List (List Char) := [
  ("abandon").data, ("ability").data, ("able").data, ("about").data, ("above").data, ("absent").data, ("absorb").data, ("abstract").data,
  ("absurd").data, ("abuse").data, ("access").data, ("accident").data, ("account").data, ("accuse").data, ("achieve").data, ("acid").data,
  ("acoustic").data, ("acquire").data, ("across").data, ("act").data, ("action").data, ("actor").data, ("actress").data, ("actual").data,
  ("adapt").data, ("add").data, ("addict").data, ("address").data, ("adjust").data, ("admit").data, ("adult").data, ("advance").data,
  ("advice").data, ("aerobic").data, ("affair").data, ("afford").data, ("afraid").data, ("again").data, ("against").data, ("agent").data,
  ("agree").data, ("ahead").data, ("aim").data, ("air").data, ("airport").data, ("aisle").data, ("alarm").data, ("album").data,
  ("alcohol").data, ("alert").data, ("alien").data, ("all").data, ("alley").data, ("allow").data, ("almost").data, ("alone").data,
  ("alpha").data, ("already").data, ("also").data, ("alter").data, ("always").data, ("amateur").data, ("amazing").data, ("among").data,
  ("amount").data, ("amused").data, ("analyst").data, ("anchor").data, ("ancient").data, ("anger").data, ("angle").data, ("angry").data,
  ("animal").data, ("ankle").data, ("announce").data, ("annual").data, ("another").data, ("answer").data, ("antenna").data, ("antique").data,
  ("anxiety").data, ("any").data, ("apart").data, ("apology").data, ("appear").data, ("apple").data, ("approve").data, ("april").data,
  ("arcade").data, ("arch").data, ("arctic").data, ("area").data, ("arena").data, ("argue").data, ("arm").data, ("armed").data,
  ("armor").data, ("army").data, ("around").data, ("arrange").data, ("arrest").data, ("arrive").data, ("arrow").data, ("art").data,
  ("artefact").data, ("artist").data, ("artwork").data, ("ask").data, ("aspect").data, ("assault").data, ("asset").data, ("assist").data,
  ("assume").data, ("asthma").data, ("athlete").data, ("atom").data, ("attack").data, ("attend").data, ("attitude").data, ("attract").data,
  ("auction").data, ("audit").data, ("august").data, ("aunt").data, ("author").data, ("auto").data, ("autumn").data, ("average").data,
  ("avocado").data, ("avoid").data, ("awake").data, ("aware").data, ("away").data, ("awesome").data, ("awful").data, ("awkward").data,
  ("axis").data, ("baby").data, ("bachelor").data, ("bacon").data, ("badge").data, ("bag").data, ("balance").data, ("balcony").data,
  ("ball").data, ("bamboo").data, ("banana").data, ("banner").data, ("bar").data, ("barely").data, ("bargain").data, ("barrel").data,
  ("base").data, ("basic").data, ("basket").data, ("battle").data, ("beach").data, ("bean").data, ("beauty").data, ("because").data,
  ("become").data, ("beef").data, ("before").data, ("begin").data, ("behave").data, ("behind").data, ("believe").data, ("below").data,
  ("belt").data, ("bench").data, ("benefit").data, ("best").data, ("betray").data, ("better").data, ("between").data, ("beyond").data,
  ("bicycle").data, ("bid").data, ("bike").data, ("bind").data, ("biology").data, ("bird").data, ("birth").data, ("bitter").data,
  ("black").data, ("blade").data, ("blame").data, ("blanket").data, ("blast").data, ("bleak").data, ("bless").data, ("blind").data,
  ("blood").data, ("blossom").data, ("blow").data, ("blue").data, ("blur").data, ("blush").data, ("board").data, ("boat").data,
  ("body").data, ("boil").data, ("bomb").data, ("bone").data, ("bonus").data, ("book").data, ("boost").data, ("border").data,
  ("boring").data, ("borrow").data, ("boss").data, ("bottom").data, ("bounce").data, ("box").data, ("boy").data, ("bracket").data,
  ("brain").data, ("brand").data, ("brass").data, ("brave").data, ("bread").data, ("breeze").data, ("brick").data, ("bridge").data,
  ("brief").data, ("bright").data, ("bring").data, ("brisk").data, ("broccoli").data, ("broken").data, ("bronze").data, ("broom").data,
  ("brother").data, ("brown").data, ("brush").data, ("bubble").data, ("buddy").data, ("budget").data, ("buffalo").data, ("build").data,
  ("bulb").data, ("bulk").data, ("bullet").data, ("bundle").data, ("bunker").data, ("burden").data, ("burger").data, ("burst").data,
  ("bus").data, ("business").data, ("busy").data, ("butter").data, ("buyer").data, ("buzz").data, ("cabbage").data, ("cabin").data,
  ("cable").data, ("cactus").data, ("cage").data, ("cake").data, ("call").data, ("calm").data, ("camera").data, ("camp").data,
  ("can").data, ("canal").data, ("cancel").data, ("candy").data, ("cannon").data, ("canoe").data, ("canvas").data, ("canyon").data,
  ("capable").data, ("capital").data, ("captain").data, ("car").data, ("carbon").data, ("card").data, ("care").data, ("career").data,
  ("careful").data, ("careless").data, ("cargo").data, ("carpet").data, ("carry").data, ("cart").data, ("case").data, ("cash").data,
  ("casino").data, ("cast").data, ("casual").data, ("cat").data, ("catalog").data, ("catch").data, ("category").data, ("cattle").data,
  ("caught").data, ("cause").data, ("caution").data, ("cave").data, ("ceiling").data, ("celery").data, ("cement").data, ("census").data,
  ("century").data, ("cereal").data, ("certain").data, ("chair").data, ("chalk").data, ("champion").data, ("change").data, ("chaos").data,
  ("chapter").data, ("charge").data, ("chase").data, ("chat").data, ("cheap").data, ("check").data, ("cheese").data, ("chef").data,
  ("cherry").data, ("chest").data, ("chicken").data, ("chief").data, ("child").data, ("chimney").data, ("choice").data, ("choose").data,
  ("chronic").data, ("chuckle").data, ("chunk").data, ("churn").data, ("cigar").data, ("cinnamon").data, ("circle").data, ("citizen").data,
  ("city").data, ("civil").data, ("claim").data, ("clamp").data, ("clarify").data, ("claw").data, ("clay").data, ("clean").data,
  ("clerk").data, ("clever").data, ("click").data, ("client").data, ("cliff").data, ("climb").data, ("clinic").data, ("clip").data,
  ("clock").data, ("clog").data, ("close").data, ("cloth").data, ("cloud").data, ("clown").data, ("club").data, ("clump").data,
  ("cluster").data, ("clutch").data, ("coach").data, ("coast").data, ("coconut").data, ("code").data, ("coffee").data, ("coil").data,
  ("coin").data, ("collect").data, ("color").data, ("column").data, ("combine").data, ("come").data, ("comfort").data, ("comic").data,
  ("common").data, ("company").data, ("concert").data, ("conduct").data, ("confirm").data, ("congress").data, ("connect").data, ("consider").data,
  ("control").data, ("convince").data, ("cook").data, ("cool").data, ("copper").data, ("copy").data, ("coral").data, ("core").data,
  ("corn").data, ("correct").data, ("cost").data, ("cotton").data, ("couch").data, ("country").data, ("couple").data, ("course").data,
  ("cousin").data, ("cover").data, ("coyote").data, ("crack").data, ("cradle").data, ("craft").data, ("cram").data, ("crane").data,
  ("crash").data, ("crater").data, ("crawl").data, ("crazy").data, ("cream").data, ("credit").data, ("creek").data, ("crew").data,
  ("cricket").data, ("crime").data, ("crisp").data, ("critic").data, ("crop").data, ("cross").data, ("crouch").data, ("crowd").data,
  ("crucial").data, ("cruel").data, ("cruise").data, ("crumble").data, ("crunch").data, ("crush").data, ("cry").data, ("crystal").data,
  ("cube").data, ("culture").data, ("cup").data, ("cupboard").data, ("curious").data, ("current").data, ("curtain").data, ("curve").data,
  ("cushion").data, ("custom").data, ("cute").data, ("cycle").data, ("dad").data, ("damage").data, ("damp").data, ("dance").data,
  ("danger").data, ("daring").data, ("dash").data, ("daughter").data, ("dawn").data, ("day").data, ("deal").data, ("debate").data,
  ("debris").data, ("decade").data, ("december").data, ("decide").data, ("decline").data, ("decorate").data, ("decrease").data, ("deer").data,
  ("defense").data, ("define").data, ("defy").data, ("degree").data, ("delay").data, ("deliver").data, ("demand").data, ("demise").data,
  ("denial").data, ("dentist").data, ("deny").data, ("depart").data, ("depend").data, ("deposit").data, ("depth").data, ("deputy").data,
  ("derive").data, ("describe").data, ("desert").data, ("design").data, ("desk").data, ("despair").data, ("destroy").data, ("detail").data,
  ("detect").data, ("device").data, ("devote").data, ("diagram").data, ("dial").data, ("diamond").data, ("diary").data, ("dice").data,
  ("diesel").data, ("diet").data, ("differ").data, ("digital").data, ("dignity").data, ("dilemma").data, ("dinner").data, ("dinosaur").data,
  ("direct").data, ("dirt").data, ("disagree").data, ("discover").data, ("disease").data, ("dish").data, ("dismiss").data, ("disorder").data,
  ("display").data, ("distance").data, ("divert").data, ("divide").data, ("divorce").data, ("dizzy").data, ("doctor").data, ("document").data,
  ("dog").data, ("doll").data, ("dolphin").data, ("domain").data, ("donate").data, ("donkey").data, ("donor").data, ("door").data,
  ("dose").data, ("double").data, ("dove").data, ("draft").data, ("dragon").data, ("drama").data, ("drape").data, ("draw").data,
  ("dream").data, ("dress").data, ("drift").data, ("drill").data, ("drink").data, ("drip").data, ("drive").data, ("drop").data,
  ("drum").data, ("dry").data, ("duck").data, ("dumb").data, ("dune").data, ("during").data, ("dust").data, ("dutch").data,
  ("duty").data, ("dwarf").data, ("dynamic").data, ("eager").data, ("eagle").data, ("early").data, ("earn").data, ("earth").data,
  ("easily").data, ("east").data, ("easy").data, ("echo").data, ("ecology").data, ("economy").data, ("edge").data, ("edit").data,
  ("educate").data, ("effort").data, ("egg").data, ("eight").data, ("either").data, ("elbow").data, ("elder").data, ("electric").data,
  ("elegant").data, ("element").data, ("elephant").data, ("elevator").data, ("elite").data, ("else").data, ("embark").data, ("embody").data,
  ("embrace").data, ("emerge").data, ("emotion").data, ("employ").data, ("empower").data, ("empty").data, ("enable").data, ("enact").data,
  ("end").data, ("endless").data, ("endorse").data, ("enemy").data, ("energy").data, ("enforce").data, ("engage").data, ("engine").data,
  ("enhance").data, ("enjoy").data, ("enlist").data, ("enough").data, ("enrich").data, ("enroll").data, ("ensure").data, ("enter").data,
  ("entire").data, ("entry").data, ("envelope").data, ("episode").data, ("equal").data, ("equip").data, ("era").data, ("erase").data,
  ("erode").data, ("erosion").data, ("error").data, ("erupt").data, ("escape").data, ("essay").data, ("essence").data, ("estate").data,
  ("eternal").data, ("ethics").data, ("evidence").data, ("evil").data, ("evoke").data, ("evolve").data, ("exact").data, ("example").data,
  ("excess").data, ("exchange").data, ("excite").data, ("exclude").data, ("excuse").data, ("execute").data, ("exercise").data, ("exhale").data,
  ("exhibit").data, ("exile").data, ("exist").data, ("exit").data, ("exotic").data, ("expand").data, ("expect").data, ("expire").data,
  ("explain").data, ("expose").data, ("express").data, ("extend").data, ("extra").data, ("eye").data, ("eyebrow").data, ("fabric").data,
  ("face").data, ("faculty").data, ("fade").data, ("faint").data, ("faith").data, ("fall").data, ("false").data, ("fame").data,
  ("family").data, ("famous").data, ("fan").data, ("fancy").data, ("fantasy").data, ("farm").data, ("fashion").data, ("fat").data,
  ("fatal").data, ("father").data, ("fatigue").data, ("fault").data, ("favorite").data, ("feature").data, ("february").data, ("federal").data,
  ("fee").data, ("feed").data, ("feel").data, ("female").data, ("fence").data, ("festival").data, ("fetch").data, ("fever").data,
  ("few").data, ("fiber").data, ("fiction").data, ("field").data, ("figure").data, ("file").data, ("fill").data, ("film").data,
  ("filter").data, ("final").data, ("find").data, ("fine").data, ("finger").data, ("finish").data, ("fire").data, ("firm").data,
  ("first").data, ("fiscal").data, ("fish").data, ("fit").data, ("fitness").data, ("fix").data, ("flag").data, ("flame").data,
  ("flash").data, ("flat").data, ("flavor").data, ("flee").data, ("flight").data, ("flip").data, ("float").data, ("flock").data,
  ("floor").data, ("flower").data, ("fluid").data, ("flush").data, ("fly").data, ("foam").data, ("focus").data, ("fog").data,
  ("foil").data, ("fold").data, ("follow").data, ("food").data, ("foot").data, ("force").data, ("forest").data, ("forget").data,
  ("fork").data, ("fortune").data, ("forum").data, ("forward").data, ("fossil").data, ("foster").data, ("found").data, ("fox").data,
  ("frame").data, ("frequent").data, ("fresh").data, ("friend").data, ("fringe").data, ("frog").data, ("front").data, ("frost").data,
  ("frown").data, ("frozen").data, ("fruit").data, ("fuel").data, ("fun").data, ("funny").data, ("furnace").data, ("fury").data,
  ("future").data, ("gadget").data, ("gain").data, ("galaxy").data, ("gallery").data, ("game").data, ("gap").data, ("garage").data,
  ("garbage").data, ("garden").data, ("garlic").data, ("garment").data, ("gas").data, ("gasp").data, ("gate").data, ("gather").data,
  ("gauge").data, ("gaze").data, ("general").data, ("genius").data, ("genre").data, ("gentle").data, ("genuine").data, ("gesture").data,
  ("ghost").data, ("giant").data, ("gift").data, ("giggle").data, ("ginger").data, ("giraffe").data, ("girl").data, ("give").data,
  ("glad").data, ("glance").data, ("glare").data, ("glass").data, ("glide").data, ("glimpse").data, ("globe").data, ("gloom").data,
  ("glory").data, ("glove").data, ("glow").data, ("glue").data, ("goat").data, ("goddess").data, ("gold").data, ("good").data,
  ("goose").data, ("gorilla").data, ("gospel").data, ("gossip").data, ("govern").data, ("gown").data, ("grab").data, ("grace").data,
  ("grain").data, ("grant").data, ("grape").data, ("grass").data, ("gravity").data, ("great").data, ("green").data, ("grid").data,
  ("grief").data, ("grit").data, ("grocery").data, ("group").data, ("grow").data, ("grunt").data, ("guard").data, ("guess").data,
  ("guide").data, ("guilt").data, ("guitar").data, ("gun").data, ("gym").data, ("hair").data, ("half").data, ("hammer").data,
  ("hamster").data, ("hand").data, ("happy").data, ("harbor").data, ("hard").data, ("harsh").data, ("harvest").data, ("hat").data,
  ("have").data, ("hawk").data, ("hazard").data, ("head").data, ("health").data, ("heart").data, ("heavy").data, ("hedgehog").data,
  ("height").data, ("hello").data, ("helmet").data, ("help").data, ("hen").data, ("hero").data, ("hidden").data, ("high").data,
  ("hill").data, ("hint").data, ("hip").data, ("hire").data, ("history").data, ("hobby").data, ("hockey").data, ("hold").data,
  ("hole").data, ("holiday").data, ("hollow").data, ("home").data, ("honey").data, ("hood").data, ("hope").data, ("horn").data,
  ("horror").data, ("horse").data, ("hospital").data, ("host").data, ("hotel").data, ("hour").data, ("hover").data, ("hub").data,
  ("huge").data, ("human").data, ("humble").data, ("humor").data, ("hundred").data, ("hungry").data, ("hunt").data, ("hurdle").data,
  ("hurry").data, ("hurt").data, ("husband").data, ("hybrid").data, ("ice").data, ("icon").data, ("idea").data, ("identify").data,
  ("idle").data, ("ignore").data, ("ill").data, ("illegal").data, ("illness").data, ("image").data, ("imitate").data, ("immense").data,
  ("immune").data, ("impact").data, ("impose").data, ("improve").data, ("impulse").data, ("inch").data, ("include").data, ("income").data,
  ("increase").data, ("index").data, ("indicate").data, ("indoor").data, ("industry").data, ("infant").data, ("inflict").data, ("inform").data,
  ("inhale").data, ("inherit").data, ("initial").data, ("inject").data, ("injury").data, ("inmate").data, ("inner").data, ("innocent").data,
  ("input").data, ("inquiry").data, ("insane").data, ("insect").data, ("inside").data, ("inspire").data, ("install").data, ("intact").data,
  ("interest").data, ("into").data, ("invest").data, ("invite").data, ("involve").data, ("iron").data, ("island").data, ("isolate").data,
  ("issue").data, ("item").data, ("ivory").data, ("jacket").data, ("jaguar").data, ("jar").data, ("jazz").data, ("jealous").data,
  ("jeans").data, ("jelly").data, ("jewel").data, ("job").data, ("join").data, ("joke").data, ("journey").data, ("joy").data,
  ("judge").data, ("juice").data, ("jump").data, ("jungle").data, ("junior").data, ("junk").data, ("just").data, ("kangaroo").data,
  ("keen").data, ("keep").data, ("ketchup").data, ("key").data, ("kick").data, ("kid").data, ("kidney").data, ("kind").data,
  ("kingdom").data, ("kiss").data, ("kit").data, ("kitchen").data, ("kite").data, ("kitten").data, ("kiwi").data, ("knee").data,
  ("knife").data, ("knock").data, ("know").data, ("lab").data, ("label").data, ("labor").data, ("ladder").data, ("lady").data,
  ("lake").data, ("lamp").data, ("language").data, ("laptop").data, ("large").data, ("later").data, ("latin").data, ("laugh").data,
  ("laundry").data, ("lava").data, ("law").data, ("lawn").data, ("lawsuit").data, ("layer").data, ("lazy").data, ("leader").data,
  ("leaf").data, ("learn").data, ("leave").data, ("lecture").data, ("left").data, ("leg").data, ("legal").data, ("legend").data,
  ("leisure").data, ("lemon").data, ("lend").data, ("length").data, ("lens").data, ("leopard").data, ("lesson").data, ("letter").data,
  ("level").data, ("liar").data, ("liberty").data, ("library").data, ("license").data, ("life").data, ("lift").data, ("light").data,
  ("like").data, ("limb").data, ("limit").data, ("link").data, ("lion").data, ("liquid").data, ("list").data, ("little").data,
  ("live").data, ("lizard").data, ("load").data, ("loan").data, ("lobster").data, ("local").data, ("lock").data, ("logic").data,
  ("lonely").data, ("long").data, ("loop").data, ("lottery").data, ("loud").data, ("lounge").data, ("love").data, ("loyal").data,
  ("lucky").data, ("luggage").data, ("lumber").data, ("lunar").data, ("lunch").data, ("luxury").data, ("lying").data, ("machine").data,
  ("mad").data, ("magic").data, ("magnet").data, ("maid").data, ("mail").data, ("main").data, ("major").data, ("make").data,
  ("mammal").data, ("man").data, ("manage").data, ("mandate").data, ("mango").data, ("mansion").data, ("manual").data, ("maple").data,
  ("marble").data, ("march").data, ("margin").data, ("marine").data, ("market").data, ("marriage").data, ("mask").data, ("mass").data,
  ("master").data, ("match").data, ("material").data, ("math").data, ("matrix").data, ("matter").data, ("maximum").data, ("maze").data,
  ("meadow").data, ("mean").data, ("measure").data, ("meat").data, ("mechanic").data, ("medal").data, ("media").data, ("melody").data,
  ("melt").data, ("member").data, ("memory").data, ("mention").data, ("menu").data, ("mercy").data, ("merge").data, ("merit").data,
  ("merry").data, ("mesh").data, ("message").data, ("metal").data, ("method").data, ("middle").data, ("midnight").data, ("milk").data,
  ("million").data, ("mimic").data, ("mind").data, ("minimum").data, ("minor").data, ("minute").data, ("miracle").data, ("mirror").data,
  ("misery").data, ("miss").data, ("mistake").data, ("mix").data, ("mixed").data, ("mixture").data, ("mobile").data, ("model").data,
  ("modify").data, ("mom").data, ("moment").data, ("monitor").data, ("monkey").data, ("monster").data, ("month").data, ("moon").data,
  ("moral").data, ("more").data, ("morning").data, ("mosquito").data, ("mother").data, ("motion").data, ("motor").data, ("mountain").data,
  ("mouse").data, ("move").data, ("movie").data, ("much").data, ("muffin").data, ("mule").data, ("multiply").data, ("muscle").data,
  ("museum").data, ("mushroom").data, ("music").data, ("must").data, ("mutual").data, ("myself").data, ("mystery").data, ("myth").data,
  ("naive").data, ("name").data, ("napkin").data, ("narrow").data, ("nasty").data, ("nation").data, ("nature").data, ("near").data,
  ("neck").data, ("need").data, ("needle").data, ("neglect").data, ("neighbor").data, ("neither").data, ("nephew").data, ("nerve").data,
  ("nest").data, ("net").data, ("network").data, ("neutral").data, ("never").data, ("news").data, ("next").data, ("nice").data,
  ("night").data, ("noble").data, ("noise").data, ("nominee").data, ("noodle").data, ("normal").data, ("north").data, ("nose").data,
  ("notable").data, ("note").data, ("nothing").data, ("notice").data, ("novel").data, ("now").data, ("nuclear").data, ("number").data,
  ("nurse").data, ("nut").data, ("oak").data, ("obey").data, ("object").data, ("oblige").data, ("obscure").data, ("observe").data,
  ("obtain").data, ("obvious").data, ("occur").data, ("ocean").data, ("october").data, ("odor").data, ("off").data, ("offer").data,
  ("office").data, ("often").data, ("oil").data, ("okay").data, ("old").data, ("olive").data, ("olympic").data, ("omit").data,
  ("once").data, ("one").data, ("onion").data, ("online").data, ("only").data, ("open").data, ("opera").data, ("opinion").data,
  ("oppose").data, ("option").data, ("orange").data, ("orbit").data, ("orchard").data, ("order").data, ("ordinary").data, ("organ").data,
  ("orient").data, ("original").data, ("orphan").data, ("ostrich").data, ("other").data, ("outdoor").data, ("outer").data, ("output").data,
  ("outside").data, ("oval").data, ("oven").data, ("over").data, ("own").data, ("owner").data, ("oxygen").data, ("oyster").data,
  ("ozone").data, ("pact").data, ("paddle").data, ("page").data, ("pair").data, ("palace").data, ("palm").data, ("panda").data,
  ("panel").data, ("panic").data, ("panther").data, ("paper").data, ("parade").data, ("parent").data, ("park").data, ("parrot").data,
  ("part").data, ("party").data, ("pass").data, ("patch").data, ("path").data, ("patient").data, ("patrol").data, ("pattern").data,
  ("pause").data, ("pave").data, ("payment").data, ("peace").data, ("peanut").data, ("pear").data, ("peasant").data, ("pelican").data,
  ("pen").data, ("penalty").data, ("pencil").data, ("people").data, ("pepper").data, ("perfect").data, ("permit").data, ("person").data,
  ("pet").data, ("phone").data, ("photo").data, ("phrase").data, ("physical").data, ("piano").data, ("picnic").data, ("picture").data,
  ("piece").data, ("pig").data, ("pigeon").data, ("pill").data, ("pilot").data, ("pink").data, ("pioneer").data, ("pipe").data,
  ("pistol").data, ("pitch").data, ("pizza").data, ("place").data, ("planet").data, ("plastic").data, ("plate").data, ("play").data,
  ("please").data, ("pledge").data, ("pluck").data, ("plug").data, ("plunge").data, ("poem").data, ("poet").data, ("point").data,
  ("polar").data, ("pole").data, ("police").data, ("pond").data, ("pony").data, ("pool").data, ("popular").data, ("portion").data,
  ("position").data, ("possible").data, ("post").data, ("potato").data, ("pottery").data, ("poverty").data, ("powder").data, ("power").data,
  ("practice").data, ("praise").data, ("predict").data, ("prefer").data, ("prepare").data, ("present").data, ("pretty").data, ("prevent").data,
  ("price").data, ("pride").data, ("primary").data, ("print").data, ("priority").data, ("prison").data, ("private").data, ("prize").data,
  ("problem").data, ("process").data, ("produce").data, ("profit").data, ("program").data, ("project").data, ("promote").data, ("proof").data,
  ("property").data, ("prosper").data, ("protect").data, ("proud").data, ("provide").data, ("public").data, ("pudding").data, ("pull").data,
  ("pulp").data, ("pulse").data, ("pumpkin").data, ("punch").data, ("pupil").data, ("puppy").data, ("purchase").data, ("purity").data,
  ("purpose").data, ("purse").data, ("push").data, ("put").data, ("puzzle").data, ("pyramid").data, ("quality").data, ("quantum").data,
  ("quarter").data, ("question").data, ("quick").data, ("quiet").data, ("quilt").data, ("quit").data, ("quiz").data, ("quote").data,
  ("rabbit").data, ("raccoon").data, ("race").data, ("rack").data, ("radar").data, ("radio").data, ("rail").data, ("rain").data,
  ("raise").data, ("rally").data, ("ramp").data, ("ranch").data, ("random").data, ("range").data, ("rapid").data, ("rare").data,
  ("rate").data, ("rather").data, ("raven").data, ("raw").data, ("razor").data, ("ready").data, ("real").data, ("reason").data,
  ("rebel").data, ("rebuild").data, ("recall").data, ("receive").data, ("recipe").data, ("record").data, ("recycle").data, ("reduce").data,
  ("reflect").data, ("reform").data, ("refuse").data, ("region").data, ("regret").data, ("regular").data, ("reject").data, ("relax").data,
  ("release").data, ("relief").data, ("rely").data, ("remain").data, ("remember").data, ("remind").data, ("remove").data, ("render").data,
  ("renew").data, ("rent").data, ("reopen").data, ("repair").data, ("repeat").data, ("replace").data, ("report").data, ("require").data,
  ("rescue").data, ("resemble").data, ("resist").data, ("resource").data, ("response").data, ("result").data, ("retire").data, ("retreat").data,
  ("return").data, ("reunion").data, ("reveal").data, ("review").data, ("reward").data, ("rhythm").data, ("rib").data, ("ribbon").data,
  ("rice").data, ("rich").data, ("ride").data, ("ridge").data, ("rifle").data, ("right").data, ("rigid").data, ("ring").data,
  ("riot").data, ("ripple").data, ("rise").data, ("risk").data, ("ritual").data, ("rival").data, ("river").data, ("road").data,
  ("roast").data, ("rob").data, ("robot").data, ("robust").data, ("rocket").data, ("romance").data, ("roof").data, ("rookie").data,
  ("room").data, ("rose").data, ("rotate").data, ("rough").data, ("round").data, ("route").data, ("royal").data, ("rubber").data,
  ("rude").data, ("rug").data, ("rule").data, ("run").data, ("runway").data, ("rural").data, ("sad").data, ("saddle").data,
  ("sadness").data, ("safe").data, ("sail").data, ("salad").data, ("salmon").data, ("salon").data, ("salt").data, ("salute").data,
  ("same").data, ("sample").data, ("sand").data, ("satisfy").data, ("satoshi").data, ("sauce").data, ("sausage").data, ("save").data,
  ("say").data, ("scale").data, ("scan").data, ("scare").data, ("scatter").data, ("scene").data, ("scheme").data, ("school").data,
  ("science").data, ("scissors").data, ("scorpion").data, ("scout").data, ("scrap").data, ("screen").data, ("script").data, ("scrub").data,
  ("sea").data, ("search").data, ("season").data, ("seat").data, ("second").data, ("secret").data, ("section").data, ("security").data,
  ("seed").data, ("seek").data, ("segment").data, ("select").data, ("sell").data, ("seminar").data, ("senior").data, ("sense").data,
  ("sentence").data, ("series").data, ("service").data, ("session").data, ("settle").data, ("setup").data, ("seven").data, ("shadow").data,
  ("shaft").data, ("shallow").data, ("share").data, ("shed").data, ("shell").data, ("sheriff").data, ("shield").data, ("shift").data,
  ("shine").data, ("ship").data, ("shirt").data, ("shock").data, ("shoe").data, ("shoot").data, ("shop").data, ("short").data,
  ("shoulder").data, ("shove").data, ("shrimp").data, ("shrug").data, ("shuffle").data, ("shy").data, ("sibling").data, ("sick").data,
  ("side").data, ("siege").data, ("sight").data, ("sign").data, ("silent").data, ("silk").data, ("silly").data, ("silver").data,
  ("similar").data, ("simple").data, ("since").data, ("sing").data, ("siren").data, ("sister").data, ("situate").data, ("six").data,
  ("size").data, ("skate").data, ("sketch").data, ("ski").data, ("skill").data, ("skin").data, ("skirt").data, ("skull").data,
  ("slab").data, ("slam").data, ("sleep").data, ("slender").data, ("slice").data, ("slide").data, ("slight").data, ("slim").data,
  ("slogan").data, ("slot").data, ("slow").data, ("slush").data, ("small").data, ("smart").data, ("smile").data, ("smoke").data,
  ("smooth").data, ("snack").data, ("snake").data, ("snap").data, ("sniff").data, ("snow").data, ("soap").data, ("soccer").data,
  ("social").data, ("sock").data, ("soda").data, ("soft").data, ("solar").data, ("soldier").data, ("solid").data, ("solution").data,
  ("solve").data, ("someone").data, ("song").data, ("soon").data, ("sorry").data, ("sort").data, ("soul").data, ("sound").data,
  ("soup").data, ("source").data, ("south").data, ("space").data, ("spare").data, ("spatial").data, ("spawn").data, ("speak").data,
  ("special").data, ("speed").data, ("spell").data, ("spend").data, ("sphere").data, ("spice").data, ("spider").data, ("spike").data,
  ("spin").data, ("spirit").data, ("split").data, ("spoil").data, ("sponsor").data, ("spoon").data, ("sport").data, ("spot").data,
  ("spray").data, ("spread").data, ("spring").data, ("spy").data, ("square").data, ("squeeze").data, ("squirrel").data, ("stable").data,
  ("stadium").data, ("staff").data, ("stage").data, ("stairs").data, ("stamp").data, ("stand").data, ("start").data, ("state").data,
  ("stay").data, ("steak").data, ("steel").data, ("stem").data, ("step").data, ("stereo").data, ("stick").data, ("still").data,
  ("sting").data, ("stock").data, ("stomach").data, ("stone").data, ("stool").data, ("story").data, ("stove").data, ("strategy").data,
  ("street").data, ("strike").data, ("strong").data, ("struggle").data, ("student").data, ("stuff").data, ("stumble").data, ("style").data,
  ("subject").data, ("submit").data, ("subway").data, ("success").data, ("such").data, ("sudden").data, ("suffer").data, ("sugar").data,
  ("suggest").data, ("suit").data, ("summer").data, ("sun").data, ("sunny").data, ("sunset").data, ("super").data, ("supply").data,
  ("supreme").data, ("sure").data, ("surface").data, ("surge").data, ("surprise").data, ("surround").data, ("survey").data, ("suspect").data,
  ("sustain").data, ("swallow").data, ("swamp").data, ("swap").data, ("swear").data, ("sweet").data, ("swift").data, ("swim").data,
  ("swing").data, ("switch").data, ("sword").data, ("symbol").data, ("symptom").data, ("syrup").data, ("system").data, ("table").data,
  ("tackle").data, ("tag").data, ("tail").data, ("talent").data, ("talk").data, ("tank").data, ("tape").data, ("target").data,
  ("task").data, ("taste").data, ("tattoo").data, ("taxi").data, ("teach").data, ("team").data, ("tell").data, ("ten").data,
  ("tenant").data, ("tennis").data, ("tent").data, ("term").data, ("test").data, ("text").data, ("thank").data, ("that").data,
  ("theme").data, ("then").data, ("theory").data, ("there").data, ("they").data, ("thing").data, ("this").data, ("thought").data,
  ("three").data, ("thrive").data, ("throw").data, ("thumb").data, ("thunder").data, ("ticket").data, ("tide").data, ("tiger").data,
  ("tilt").data, ("timber").data, ("time").data, ("tiny").data, ("tip").data, ("tired").data, ("tissue").data, ("title").data,
  ("toast").data, ("tobacco").data, ("today").data, ("toddler").data, ("toe").data, ("together").data, ("toilet").data, ("token").data,
  ("tomato").data, ("tomorrow").data, ("tone").data, ("tongue").data, ("tonight").data, ("tool").data, ("tooth").data, ("top").data,
  ("topic").data, ("topple").data, ("torch").data, ("tornado").data, ("tortoise").data, ("toss").data, ("total").data, ("tourist").data,
  ("toward").data, ("tower").data, ("town").data, ("toy").data, ("track").data, ("trade").data, ("traffic").data, ("tragic").data,
  ("train").data, ("transfer").data, ("trap").data, ("trash").data, ("travel").data, ("tray").data, ("treat").data, ("tree").data,
  ("trend").data, ("trial").data, ("tribe").data, ("trick").data, ("trigger").data, ("trim").data, ("trip").data, ("trophy").data,
  ("trouble").data, ("truck").data, ("true").data, ("truly").data, ("trumpet").data, ("trust").data, ("truth").data, ("try").data,
  ("tube").data, ("tuition").data, ("tumble").data, ("tuna").data, ("tunnel").data, ("turkey").data, ("turn").data, ("turtle").data,
  ("twelve").data, ("twenty").data, ("twice").data, ("twin").data, ("twist").data, ("two").data, ("type").data, ("typical").data,
  ("ugly").data, ("umbrella").data, ("unable").data, ("unaware").data, ("uncle").data, ("uncover").data, ("under").data, ("undo").data,
  ("unfair").data, ("unfold").data, ("unhappy").data, ("uniform").data, ("unique").data, ("unit").data, ("universe").data, ("unknown").data,
  ("unlock").data, ("until").data, ("unusual").data, ("unveil").data, ("update").data, ("upgrade").data, ("uphold").data, ("upon").data,
  ("upper").data, ("upset").data, ("urban").data, ("urge").data, ("usage").data, ("use").data, ("used").data, ("useful").data,
  ("useless").data, ("usual").data, ("utility").data, ("vacant").data, ("vacuum").data, ("vague").data, ("valid").data, ("valley").data,
  ("valve").data, ("van").data, ("vanish").data, ("vapor").data, ("various").data, ("vast").data, ("vault").data, ("vehicle").data,
  ("velvet").data, ("vendor").data, ("venture").data, ("venue").data, ("verb").data, ("verify").data, ("version").data, ("very").data,
  ("vessel").data, ("veteran").data, ("viable").data, ("vibrant").data, ("vicious").data, ("victory").data, ("video").data, ("view").data,
  ("village").data, ("vintage").data, ("violin").data, ("virtual").data, ("virus").data, ("visa").data, ("visit").data, ("visual").data,
  ("vital").data, ("vivid").data, ("vocal").data, ("voice").data, ("void").data, ("volcano").data, ("volume").data, ("vote").data,
  ("voyage").data, ("wage").data, ("wagon").data, ("wait").data, ("walk").data, ("wall").data, ("walnut").data, ("want").data,
  ("warfare").data, ("warm").data, ("warrior").data, ("wash").data, ("wasp").data, ("waste").data, ("water").data, ("wave").data,
  ("way").data, ("wealth").data, ("weapon").data, ("wear").data, ("weasel").data, ("weather").data, ("web").data, ("wedding").data,
  ("weekend").data, ("weird").data, ("welcome").data, ("west").data, ("wet").data, ("what").data, ("wheat").data, ("wheel").data,
  ("when").data, ("where").data, ("whip").data, ("whisper").data, ("wide").data, ("width").data, ("wife").data, ("wild").data,
  ("will").data, ("win").data, ("window").data, ("wine").data, ("wing").data, ("wink").data, ("winner").data, ("winter").data,
  ("wire").data, ("wisdom").data, ("wise").data, ("wish").data, ("witness").data, ("wolf").data, ("woman").data, ("wonder").data,
  ("wood").data, ("wool").data, ("word").data, ("work").data, ("world").data, ("worry").data, ("worth").data, ("wrap").data,
  ("wreck").data, ("wrestle").data, ("wrist").data, ("write").data, ("wrong").data, ("yard").data, ("year").data, ("yellow").data,
  ("you").data, ("young").data, ("youth").data, ("zebra").data, ("zero").data, ("zone").data, ("zoo").data]

/-- Model of the regex (.)\1{2,} searched with re.IGNORECASE: three consecutive
characters that are case-insensitively equal (the dot of the group cannot match
a newline). -/
def regexRepeatCI (s : List Char) : Bool :=
  scanTriples (fun a b c => !(a == '\n') && (lowerC a == lowerC b) && (lowerC a == lowerC c)) s

/-- Model of the regex (abc|123|qwe|asd|zxc) searched with re.IGNORECASE. -/
def regexSeqChunk (s : List Char) : Bool :=
  [("abc").data, ("123").data, ("qwe").data, ("asd").data, ("zxc").data].any
    (fun w => substrB w (toLowerStr s))

/-- Model of the regex (password|admin|user|login|test) searched with re.IGNORECASE. -/
def regexCommonWords (s : List Char) : Bool :=
  [("password").data, ("admin").data, ("user").data, ("login").data, ("test").data].any
    (fun w => substrB w (toLowerStr s))

/-- Model of the regex (19|20)\d{2}. -/
def regexYear (s : List Char) : Bool :=
  scanQuads (fun a b c d => ((a == '1' && b == '9') || (a == '2' && b == '0'))
    && isDigitC c && isDigitC d) s

/-- Model of the regex \d{4,}: four or more consecutive digits. -/
def regexLongDigits (s : List Char) : Bool :=
  scanQuads (fun a b c d => isDigitC a && isDigitC b && isDigitC c && isDigitC d) s

/-- COMMON_PATTERNS: the fixed list of five pattern regexes, as matcher functions. -/
def COMMON_PATTERNS : List (List Char → Bool) :=
  [regexRepeatCI, regexSeqChunk, regexCommonWords, regexYear, regexLongDigits]

/-- Keyboard patterns checked by _has_keyboard_pattern. -/
def KEYBOARD_PATTERNS : List (List Char) :=
  [("qwertyuiop").data, ("asdfghjkl").data, ("zxcvbnm").data,
   ("1234567890").data, ("!@#$%^&*()").data, ("qwerty").data, ("asdf").data, ("zxcv").data]

/-- _has_keyboard_pattern: some keyboard pattern, or its reverse, occurs in the
lowercased password. -/
def has_keyboard_pattern (password : List Char) : Bool :=
  KEYBOARD_PATTERNS.any (fun pat =>
    substrB pat (toLowerStr password) || substrB pat.reverse (toLowerStr password))

/-- The fixed common-sequence substrings of _has_sequential_pattern. -/
def SEQUENCES : List (List Char) :=
  [("abc").data, ("123").data, ("qwe").data, ("asd").data, ("zxc").data,
   ("wer").data, ("ert").data, ("rty").data]

/-- Three consecutive code points forming an ascending or descending run. -/
def ordRun (a b c : Char) : Bool :=
  (a.toNat + 1 == b.toNat && b.toNat + 1 == c.toNat) ||
  (a.toNat == b.toNat + 1 && b.toNat == c.toNat + 1)

/-- _has_sequential_pattern. -/
def has_sequential_pattern (password : List Char) : Bool :=
  SEQUENCES.any (fun seq => substrB seq (toLowerStr password)) || scanTriples ordRun password

/-- The run-length loop of _has_repetitive_pattern. -/
def runCheck (prev : Char) (count : Nat) (maxConsecutive : Nat) : List Char → Bool
  | [] => false
  | c :: rest =>
    if c = prev then
      if count + 1 > maxConsecutive then true else runCheck c (count + 1) maxConsecutive rest
    else runCheck c 1 maxConsecutive rest

/-- _has_repetitive_pattern. -/
def has_repetitive_pattern (password : List Char) (maxConsecutive : Nat) : Bool :=
  match password with
  | [] => false
  | c :: rest => runCheck c 1 maxConsecutive rest

/-- _contains_dictionary_word: the lowercased password is a weak password, or
contains some word-list entry of length at least 4 as a substring. -/
def contains_dictionary_word (password : List Char) : Bool :=
  decide (toLowerStr password ∈ WEAK_PASSWORDS) ||
  WORDLIST.any (fun w => decide (4 ≤ w.length) && substrB w (toLowerStr password))

/-- PasswordComplexity enumeration. -/
inductive PasswordComplexity where
  | minimum
  | standard
  | high
  | maximum
  | military
deriving DecidableEq

/-- PasswordPolicy dataclass, with its field defaults.  Counts and lengths are
naturals; entropy_threshold is a rational (every Python float is a dyadic
rational); custom_exclusions is a list of strings. -/
structure PasswordPolicy where
  min_length : Nat := 12
  max_length : Nat := 128
  require_uppercase : Bool := true
  require_lowercase : Bool := true
  require_digits : Bool := true
  require_symbols : Bool := true
  min_uppercase : Nat := 1
  min_lowercase : Nat := 1
  min_digits : Nat := 1
  min_symbols : Nat := 1
  exclude_ambiguous : Bool := false
  exclude_similar : Bool := false
  exclude_sequential : Bool := true
  exclude_repetitive : Bool := true
  max_consecutive : Nat := 2
  exclude_dictionary : Bool := true
  custom_exclusions : List (List Char) := []
  entropy_threshold : ℚ := 50
deriving DecidableEq

/-- _get_default_policy: the five complexity tiers. -/
def get_default_policy : PasswordComplexity → PasswordPolicy
  | PasswordComplexity.minimum =>
    { min_length := 8, require_symbols := false, min_symbols := 0, entropy_threshold := 30 }
  | PasswordComplexity.standard =>
    { min_length := 12, entropy_threshold := 50 }
  | PasswordComplexity.high =>
    { min_length := 16, min_uppercase := 2, min_lowercase := 2, min_digits := 2,
      min_symbols := 2, exclude_ambiguous := true, entropy_threshold := 70 }
  | PasswordComplexity.maximum =>
    { min_length := 20, min_uppercase := 3, min_lowercase := 3, min_digits := 3,
      min_symbols := 3, exclude_ambiguous := true, exclude_similar := true,
      max_consecutive := 1, entropy_threshold := 90 }
  | PasswordComplexity.military =>
    { min_length := 24, min_uppercase := 4, min_lowercase := 4, min_digits := 4,
      min_symbols := 4, exclude_ambiguous := true, exclude_similar := true,
      exclude_sequential := true, exclude_repetitive := true,
      max_consecutive := 1, entropy_threshold := 110 }

/-- The quantity checked by _validate_policy. -/
def sum_minimums (p : PasswordPolicy) : Nat :=
  p.min_uppercase + p.min_lowercase + p.min_digits + p.min_symbols

/-- Error taxonomy of generation.  In Python all of these are raised as
ValueError; they are distinguished here by their distinct messages. -/
inductive GenError where
  | configInfeasible
  | badRange
  | emptyCharset
  | exhausted
deriving DecidableEq

/-- Sampling count times from a class charset (the per-class for-loop appending
required characters). -/
def sampleClass (cls : List Char) : Nat → List Nat → List Char × List Nat
  | 0, tape => ([], tape)
  | k + 1, tape =>
    let r := consume tape
    let rest := sampleClass cls k r.2
    (choiceFrom cls r.1 :: rest.1, rest.2)

/-- The required-character sampling of _generate_candidate_password: for each
required class, min_class samples from that class's FULL charset (exclusions
are applied only afterwards, to the fill charset). -/
def buildRequired (policy : PasswordPolicy) (tape : List Nat) : List Char × List Nat :=
  let s1 := if policy.require_lowercase then sampleClass LOWERCASE policy.min_lowercase tape
            else ([], tape)
  let s2 := if policy.require_uppercase then sampleClass UPPERCASE policy.min_uppercase s1.2
            else ([], s1.2)
  let s3 := if policy.require_digits then sampleClass DIGITS policy.min_digits s2.2
            else ([], s2.2)
  let s4 := if policy.require_symbols then sampleClass SYMBOLS_EXTENDED policy.min_symbols s3.2
            else ([], s3.2)
  (s1.1 ++ s2.1 ++ s3.1 ++ s4.1, s4.2)

/-- The charset concatenation of _generate_candidate_password (before removals). -/
def buildCharset (policy : PasswordPolicy) : List Char :=
  (if policy.require_lowercase then LOWERCASE else []) ++
  (if policy.require_uppercase then UPPERCASE else []) ++
  (if policy.require_digits then DIGITS else []) ++
  (if policy.require_symbols then SYMBOLS_EXTENDED else [])

/-- Python str.replace(w, ...) with empty replacement: remove non-overlapping
occurrences of w, scanning left to right. -/
def removeSub (w : List Char) : List Char → List Char
  | [] => []
  | b :: s =>
    if h : w ≠ [] ∧ startsWith w (b :: s) = true then removeSub w ((b :: s).drop w.length)
    else b :: removeSub w s
termination_by l => l.length
decreasing_by
  · have hw : 0 < w.length := List.length_pos.mpr h.1
    simp only [List.length_drop, List.length_cons]
    omega
  · simp

/-- The exclusion removals of _generate_candidate_password: ambiguous, similar,
then each custom exclusion via str.replace. -/
def applyExclusions (policy : PasswordPolicy) (cs : List Char) : List Char :=
  let cs1 := if policy.exclude_ambiguous then cs.filter (fun c => !(AMBIGUOUS.contains c)) else cs
  let cs2 := if policy.exclude_similar then cs1.filter (fun c => !(SIMILAR.contains c)) else cs1
  policy.custom_exclusions.foldl (fun acc e => removeSub e acc) cs2

/-- The body of the fill loop, counted by the number of iterations left.  Each
iteration appends one character, so the guard len(password_chars) < length of
the Python while loop holds exactly for the first (target - len(acc)) passes. -/
def fillLoop (charset : List Char) : Nat → List Char → List Nat → List Char × List Nat
  | 0, acc, tape => (acc, tape)
  | fuel + 1, acc, tape =>
    let r := consume tape
    fillLoop charset fuel (acc ++ [choiceFrom charset r.1]) r.2

/-- The fill loop: while len(password_chars) < length, append a secure-random
character of the (post-exclusion) charset. -/
def fillChars (charset : List Char) (acc : List Char) (target : Nat) (tape : List Nat) :
    List Char × List Nat :=
  fillLoop charset (target - acc.length) acc tape

/-- x[i], x[j] = x[j], x[i] on a list (no-op on out-of-range indices, which the
shuffle never produces). -/
def swapL (l : List Char) (i j : Nat) : List Char :=
  match l[i]?, l[j]? with
  | some a, some b => (l.set i b).set j a
  | _, _ => l

/-- The Fisher-Yates loop of random.shuffle: for i = len(x)-1 down to 1, draw
j = randbelow(i+1) and swap x[i] with x[j]. -/
def fyAux : List Char → Nat → List Nat → List Char × List Nat
  | l, 0, tape => (l, tape)
  | l, i + 1, tape =>
    let r := consume tape
    fyAux (swapL l (i + 1) (randBelow (i + 2) r.1)) i r.2

/-- secrets.SystemRandom().shuffle. -/
def fisherYates (l : List Char) (tape : List Nat) : List Char × List Nat :=
  fyAux l (l.length - 1) tape

/-- _generate_candidate_password as a deterministic function of the randomness
tape: draw the length, sample required characters from the full class charsets,
build the post-exclusion fill charset (error if empty), fill up to the drawn
length, then shuffle. -/
def generate_candidate (policy : PasswordPolicy) (tape : List Nat) :
    Except GenError (List Char) × List Nat :=
  if policy.max_length < policy.min_length then (Except.error GenError.badRange, tape)
  else
    let r1 := consume tape
    let len := randBelow (policy.max_length - policy.min_length + 1) r1.1 + policy.min_length
    let req := buildRequired policy r1.2
    let charset := applyExclusions policy (buildCharset policy)
    if charset = [] then (Except.error GenError.emptyCharset, req.2)
    else
      let fill := fillChars charset req.1 len req.2
      let shuf := fisherYates fill.1 fill.2
      (Except.ok shuf.1, shuf.2)

/-- _calculate_pattern_penalty: starting from 1.0, multiply by 0.8 for each of
the five COMMON_PATTERNS that matches, by 0.1 if the lowercased password is in
WEAK_PASSWORDS, by 0.7 if a keyboard pattern is present; floor the result at
0.1.  Python float arithmetic is modelled as exact rational arithmetic. -/
def pattern_penalty (password : List Char) : ℚ :=
  let p1 := COMMON_PATTERNS.foldl (fun acc m => if m password then acc * (8 / 10) else acc) 1
  let p2 := if toLowerStr password ∈ WEAK_PASSWORDS then p1 * (1 / 10) else p1
  let p3 := if has_keyboard_pattern password then p2 * (7 / 10) else p2
  max p3 (1 / 10)

/-- The presence-based character-space size of calculate_entropy. -/
def charset_size (password : List Char) : Nat :=
  (if password.any isLowerC then 26 else 0) +
  (if password.any isUpperC then 26 else 0) +
  (if password.any isDigitC then 10 else 0) +
  (if password.any (fun c => SYMBOLS_EXTENDED.contains c) then SYMBOLS_EXTENDED.length else 0)

/-- calculate_entropy: 0 for the empty password; otherwise length * log2 of the
detected character-space size (0 if the size is 0), scaled by the pattern
penalty.  The memoisation cache of the Python code is semantically transparent
for a pure function and is not modelled. -/
noncomputable def calculate_entropy (password : List Char) : ℝ :=
  if password = [] then 0
  else
    (if charset_size password = 0 then 0
     else (password.length : ℝ) * Real.logb 2 (charset_size password)) *
    (pattern_penalty password : ℝ)

/-- _validate_password: the conjunction of the length check, the four per-class
minimum-count checks, the enabled sequential/repetitive/dictionary pattern
checks, and the entropy-threshold check. -/
def validate_password (password : List Char) (policy : PasswordPolicy) : Prop :=
  (policy.min_length ≤ password.length ∧ password.length ≤ policy.max_length) ∧
  policy.min_uppercase ≤ password.countP isUpperC ∧
  policy.min_lowercase ≤ password.countP isLowerC ∧
  policy.min_digits ≤ password.countP isDigitC ∧
  policy.min_symbols ≤ password.countP (fun c => SYMBOLS_EXTENDED.contains c) ∧
  (policy.exclude_sequential = true → has_sequential_pattern password = false) ∧
  (policy.exclude_repetitive = true →
    has_repetitive_pattern password policy.max_consecutive = false) ∧
  (policy.exclude_dictionary = true → contains_dictionary_word password = false) ∧
  (policy.entropy_threshold : ℝ) ≤ calculate_entropy password

/-- The retry loop of generate_password, as a relation between the remaining
attempt budget, the randomness tape and the outcome: with no budget left the
ValueError after max_attempts is raised; otherwise one candidate is built from
the tape and either propagates its error, is returned if it validates, or is
rejected and the loop continues on the remaining tape. -/
inductive RunAttempts (policy : PasswordPolicy) :
    Nat → List Nat → Except GenError (List Char) → Prop where
  | exhausted (tape : List Nat) :
      RunAttempts policy 0 tape (Except.error GenError.exhausted)
  | candidateError (n : Nat) (tape : List Nat) (e : GenError)
      (h : (generate_candidate policy tape).1 = Except.error e) :
      RunAttempts policy (n + 1) tape (Except.error e)
  | accept (n : Nat) (tape : List Nat) (c : List Char)
      (h : (generate_candidate policy tape).1 = Except.ok c)
      (hv : validate_password c policy) :
      RunAttempts policy (n + 1) tape (Except.ok c)
  | reject (n : Nat) (tape : List Nat) (c : List Char) (r : Except GenError (List Char))
      (h : (generate_candidate policy tape).1 = Except.ok c)
      (hv : ¬ validate_password c policy)
      (hrest : RunAttempts policy n (generate_candidate policy tape).2 r) :
      RunAttempts policy (n + 1) tape r

/-- Lines 422-427 of generate_password: substitute the default policy for the
chosen complexity when no policy is given, then, when an explicit length is
given, overwrite min_length with it and max_length with max(length, max_length).
When a policy object was passed, this overwriting mutates the caller's object. -/
def resolve_policy (policyArg : Option PasswordPolicy) (lengthArg : Option Nat)
    (complexity : PasswordComplexity) : PasswordPolicy :=
  let policy := match policyArg with
    | none => get_default_policy complexity
    | some p => p
  match lengthArg with
  | none => policy
  | some n => { policy with min_length := n, max_length := max n policy.max_length }

/-- generate_password: resolve the policy, check feasibility once (raising the
configuration ValueError before any candidate is built or any randomness is
consumed — the outcome in that case is the same for every tape), then run at
most 1000 candidate attempts. -/
def GeneratePassword (policyArg : Option PasswordPolicy) (lengthArg : Option Nat)
    (complexity : PasswordComplexity) (tape : List Nat)
    (result : Except GenError (List Char)) : Prop :=
  if (resolve_policy policyArg lengthArg complexity).min_length <
      sum_minimums (resolve_policy policyArg lengthArg complexity) then
    result = Except.error GenError.configInfeasible
  else RunAttempts (resolve_policy policyArg lengthArg complexity) 1000 tape result

/-- The module-level convenience function generate_password(length, ...): a
fresh generator, default STANDARD complexity, explicit length. -/
def module_generate_password (len : Nat) (tape : List Nat)
    (result : Except GenError (List Char)) : Prop :=
  GeneratePassword none (some len) PasswordComplexity.standard tape result

/-- External primitives consumed by the analyzer: the hashing library digests
(md5/sha1/sha256 hex digests of the encoded string) and the float renderings of
the f-string formats :.0f and :.1f.  They are collaborator code outside the
engine, so they are parameters of the model. -/
structure Externals where
  md5 : List Char → String
  sha1 : List Char → String
  sha256 : List Char → String
  fmt0 : ℝ → String
  fmt1 : ℝ → String

open Classical in
/-- The format_time helper of _estimate_crack_time. -/
noncomputable def format_time (ext : Externals) (seconds : ℝ) : String :=
  if seconds < 60 then ext.fmt0 seconds ++ (" seconds")
  else if seconds < 3600 then ext.fmt0 (seconds / 60) ++ (" minutes")
  else if seconds < 86400 then ext.fmt1 (seconds / 3600) ++ (" hours")
  else if seconds < 31536000 then ext.fmt0 (seconds / 86400) ++ (" days")
  else if seconds < 31536000000 then ext.fmt0 (seconds / 31536000) ++ (" years")
  else ("centuries")

/-- The attack-rate table of _estimate_crack_time (attempts per second). -/
noncomputable def ATTACK_SCENARIOS : List (String × ℝ) :=
  [(("online_throttled"), 1000), (("online_unthrottled"), 1000000),
   (("offline_slow"), 1000000000), (("offline_fast"), 1000000000000),
   (("massive_cracking"), 1000000000000000)]

/-- The largest finite IEEE-754 double, 2^1024 - 2^971: Python float arithmetic
raises OverflowError when a result exceeds it. -/
noncomputable def maxDouble : ℝ := (2 : ℝ) ^ (1024 : Nat) - (2 : ℝ) ^ (971 : Nat)

open Classical in
/-- The scenario dictionary that _estimate_crack_time returns when it returns:
instant for entropy <= 0, otherwise the average time (2^entropy / 2) / rate per
scenario. -/
noncomputable def crack_time_table (ext : Externals) (entropy : ℝ) :
    List (String × String) :=
  if entropy ≤ 0 then [(("instant"), ("0 seconds"))]
  else ATTACK_SCENARIOS.map (fun sc => (sc.1, format_time ext ((2 : ℝ) ^ entropy / 2 / sc.2)))

open Classical in
/-- _estimate_crack_time with its error path: for entropy <= 0 it short-circuits
to the instant dictionary before any exponentiation; otherwise it computes
combinations = 2 ** entropy in float arithmetic, which raises an uncaught
OverflowError when the real value exceeds the largest finite double (the float
rounding at that boundary is below the resolution of this real-number model);
otherwise it returns the scenario dictionary. -/
noncomputable def estimate_crack_time (ext : Externals) (entropy : ℝ) :
    Except String (List (String × String)) :=
  if entropy ≤ 0 then Except.ok [(("instant"), ("0 seconds"))]
  else if maxDouble < (2 : ℝ) ^ entropy then
    Except.error ("OverflowError: math range error")
  else Except.ok
    (ATTACK_SCENARIOS.map (fun sc => (sc.1, format_time ext ((2 : ℝ) ^ entropy / 2 / sc.2))))

/-- _analyze_characters. -/
def analyze_characters (password : List Char) : List (String × Bool) :=
  [(("has_lowercase"), password.any isLowerC),
   (("has_uppercase"), password.any isUpperC),
   (("has_digits"), password.any isDigitC),
   (("has_symbols"), password.any (fun c => SYMBOLS_EXTENDED.contains c)),
   (("has_ambiguous"), password.any (fun c => AMBIGUOUS.contains c)),
   (("has_similar"), password.any (fun c => SIMILAR.contains c)),
   (("only_ascii"), password.all (fun c => decide (c.toNat < 128))),
   (("has_unicode"), password.any (fun c => decide (128 ≤ c.toNat)))]

/-- _check_policy_compliance: the per-rule dictionary (rule name to the
proposition that the rule passes). -/
def check_policy_compliance (password : List Char) (policy : PasswordPolicy) :
    List (String × Prop) :=
  [(("length_ok"), policy.min_length ≤ password.length ∧ password.length ≤ policy.max_length),
   (("uppercase_ok"), policy.min_uppercase ≤ password.countP isUpperC),
   (("lowercase_ok"), policy.min_lowercase ≤ password.countP isLowerC),
   (("digits_ok"), policy.min_digits ≤ password.countP isDigitC),
   (("symbols_ok"), policy.min_symbols ≤ password.countP (fun c => SYMBOLS_EXTENDED.contains c)),
   (("no_ambiguous"), policy.exclude_ambiguous = true →
      password.any (fun c => AMBIGUOUS.contains c) = false),
   (("no_similar"), policy.exclude_similar = true →
      password.any (fun c => SIMILAR.contains c) = false),
   (("no_sequential"), policy.exclude_sequential = true →
      has_sequential_pattern password = false),
   (("no_repetitive"), policy.exclude_repetitive = true →
      has_repetitive_pattern password policy.max_consecutive = false),
   (("no_dictionary"), policy.exclude_dictionary = true →
      contains_dictionary_word password = false),
   (("entropy_ok"), (policy.entropy_threshold : ℝ) ≤ calculate_entropy password)]

/-- The case-sensitive repeated-character regex (.)\1{2,} used by
_identify_vulnerabilities (searched without re.IGNORECASE there). -/
def regexRepeatCS (s : List Char) : Bool :=
  scanTriples (fun a b c => !(a == '\n') && (a == b) && (a == c)) s

open Classical in
/-- _identify_vulnerabilities. -/
noncomputable def identify_vulnerabilities (password : List Char) : List String :=
  (if password.length < 8 then [("Password too short (less than 8 characters)")] else []) ++
  (if (password.dedup.length : ℝ) < (password.length : ℝ) * (5 / 10) then
     [("Low character diversity (many repeated characters)")] else []) ++
  (if toLowerStr password ∈ WEAK_PASSWORDS then
     [("Password found in common password lists")] else []) ++
  (if password ≠ [] ∧ password.all isLowerC then [("Only lowercase letters used")]
   else if password ≠ [] ∧ password.all isUpperC then [("Only uppercase letters used")]
   else if password ≠ [] ∧ password.all isDigitC then [("Only digits used")] else []) ++
  (if has_keyboard_pattern password then [("Contains keyboard patterns")] else []) ++
  (if regexYear password then [("Contains year pattern")] else []) ++
  (if regexRepeatCS password then [("Contains repeated character sequences")] else []) ++
  (if [("password").data, ("admin").data, ("user").data, ("login").data].any
       (fun w => substrB w (toLowerStr password)) then
     [("Contains common password terms")] else [])

open Classical in
/-- _generate_recommendations.  The Python code greps str(vulnerabilities) for
marker phrases; a phrase occurs in the rendered list iff it occurs in one of
the elements, which is how the check is modelled. -/
noncomputable def generate_recommendations (password : List Char) (policy : PasswordPolicy)
    (vulnerabilities : List String) : List String :=
  let recs :=
    (if ¬ (policy.min_length ≤ password.length ∧ password.length ≤ policy.max_length) then
       [("Increase password length to at least 12 characters")] else []) ++
    (if ¬ (policy.min_uppercase ≤ password.countP isUpperC) then
       [("Add uppercase letters (A-Z)")] else []) ++
    (if ¬ (policy.min_lowercase ≤ password.countP isLowerC) then
       [("Add lowercase letters (a-z)")] else []) ++
    (if ¬ (policy.min_digits ≤ password.countP isDigitC) then
       [("Add numeric digits (0-9)")] else []) ++
    (if ¬ (policy.min_symbols ≤ password.countP (fun c => SYMBOLS_EXTENDED.contains c)) then
       [("Add special symbols (!@#$%^&*)")] else []) ++
    (if vulnerabilities.any (fun v => substrB ("Low character diversity").data v.data) then
       [("Use more unique characters")] else []) ++
    (if vulnerabilities.any (fun v => substrB ("keyboard patterns").data v.data) then
       [("Avoid keyboard patterns (qwerty, 123456, etc.)")] else []) ++
    (if vulnerabilities.any (fun v => substrB ("repeated character").data v.data) then
       [("Avoid repeating the same character multiple times")] else []) ++
    (if calculate_entropy password < 50 then
       [("Increase overall complexity for better security")] else [])
  if recs = [] then [("Password meets security requirements")] else recs

/-- The sha512 entry of _generate_hash_analysis: the Python line subscripts the
hash object itself (hashlib.sha512(...)[:32], missing .digest()), which raises
TypeError at runtime for every input. -/
def sha512_truncated (password : List Char) : Except String String :=
  Except.error ("TypeError: sha512 hash object is not subscriptable")

/-- _generate_hash_analysis: the try block builds the digest dictionary, but
the sha512 entry always raises, so the except branch returns the error
dictionary for every input. -/
def generate_hash_analysis (ext : Externals) (password : List Char) :
    List (String × String) :=
  match (do
    let m := ext.md5 password
    let s1 := ext.sha1 password
    let s2 := ext.sha256 password
    let s5 ← sha512_truncated password
    pure [(("md5"), m), (("sha1"), s1), (("sha256"), s2), (("sha512"), s5)] :
    Except String (List (String × String))) with
  | Except.ok l => l
  | Except.error _ => [(("error"), ("Hash generation failed"))]

/-- _calculate_strength_score. -/
noncomputable def calculate_strength_score (password : List Char) (entropy : ℝ) : ℝ :=
  let lengthScore : ℝ :=
    if 20 ≤ password.length then 25
    else if 16 ≤ password.length then 20
    else if 12 ≤ password.length then 15
    else if 8 ≤ password.length then 10
    else ((max 0 (password.length * 2) : Nat) : ℝ)
  let varieties : Nat :=
    (if password.any isLowerC then 1 else 0) + (if password.any isUpperC then 1 else 0) +
    (if password.any isDigitC then 1 else 0) +
    (if password.any (fun c => SYMBOLS_EXTENDED.contains c) then 1 else 0)
  let entropyScore : ℝ := min 40 (entropy / 100 * 40)
  let patternScore : ℝ := (pattern_penalty password : ℝ) * 10
  min 100 (max 0 (lengthScore + (varieties : ℝ) * 6.25 + entropyScore + patternScore))

open Classical in
/-- _get_strength_level. -/
noncomputable def get_strength_level (score : ℝ) : String :=
  if 90 ≤ score then ("EXCELLENT")
  else if 80 ≤ score then ("VERY_STRONG")
  else if 70 ≤ score then ("STRONG")
  else if 60 ≤ score then ("GOOD")
  else if 40 ≤ score then ("MODERATE")
  else if 20 ≤ score then ("WEAK")
  else ("VERY_WEAK")

/-- PasswordAnalysis dataclass. -/
structure PasswordAnalysis where
  password : List Char
  strength_score : ℝ
  strength_level : String
  entropy : ℝ
  time_to_crack : List (String × String)
  character_analysis : List (String × Bool)
  policy_compliance : List (String × Prop)
  vulnerabilities : List String
  recommendations : List String
  hash_analysis : List (String × String)
  created_at : ℝ

/-- analyze_password as a value assembler: substitute the STANDARD default
policy when none is given, then assemble every analysis field.  This is the
analysis value the call produces when it returns; the one raising component,
_estimate_crack_time's float overflow, aborts the call before the later fields
are computed and is modelled by analyze_password_run below.  created_at
(time.time()) is the `now` argument. -/
noncomputable def analyze_password (ext : Externals) (now : ℝ) (password : List Char)
    (policyArg : Option PasswordPolicy) : PasswordAnalysis :=
  let policy := match policyArg with
    | none => get_default_policy PasswordComplexity.standard
    | some p => p
  let entropy := calculate_entropy password
  let score := calculate_strength_score password entropy
  { password := password
    strength_score := score
    strength_level := get_strength_level score
    entropy := entropy
    time_to_crack := crack_time_table ext entropy
    character_analysis := analyze_characters password
    policy_compliance := check_policy_compliance password policy
    vulnerabilities := identify_vulnerabilities password
    recommendations := generate_recommendations password policy (identify_vulnerabilities password)
    hash_analysis := generate_hash_analysis ext password
    created_at := now }

/-- A call of analyze_password at run level: _estimate_crack_time is the only
component that can raise (its float overflow is uncaught), so the call either
propagates that OverflowError or returns the assembled analysis value. -/
noncomputable def analyze_password_run (ext : Externals) (now : ℝ) (password : List Char)
    (policyArg : Option PasswordPolicy) : Except String PasswordAnalysis :=
  match estimate_crack_time ext (calculate_entropy password) with
  | Except.error e => Except.error e
  | Except.ok _ => Except.ok (analyze_password ext now password policyArg)

/-- ASCII uppercasing (Python str.upper on ASCII characters). -/
def upperC (c : Char) : Char :=
  if 97 ≤ c.toNat ∧ c.toNat ≤ 122 then Char.ofNat (c.toNat - 32) else c

/-- Python str.capitalize(): first character uppercased, the rest lowercased. -/
def capitalizeStr : List Char → List Char
  | [] => []
  | c :: rest => upperC c :: rest.map lowerC

/-- secrets.choice(WORDLIST). -/
def choiceWord (v : Nat) : List Char := WORDLIST.getD (v % WORDLIST.length) []

/-- The word-sampling loop of generate_passphrase. -/
def pickWords (cap : Bool) : Nat → List Nat → List (List Char) × List Nat
  | 0, tape => ([], tape)
  | k + 1, tape =>
    let r := consume tape
    let w := if cap then capitalizeStr (choiceWord r.1) else choiceWord r.1
    let rest := pickWords cap k r.2
    (w :: rest.1, rest.2)

/-- str(secrets.randbelow(10)): one decimal digit character. -/
def digitChar (v : Nat) : Char := Char.ofNat (48 + v % 10)

/-- The digit-appending loop of generate_passphrase. -/
def sampleDigits : Nat → List Nat → List Char × List Nat
  | 0, tape => ([], tape)
  | k + 1, tape =>
    let r := consume tape
    let rest := sampleDigits k r.2
    (digitChar r.1 :: rest.1, rest.2)

/-- The symbol-appending loop of generate_passphrase (basic symbols). -/
def sampleSymbols : Nat → List Nat → List Char × List Nat
  | 0, tape => ([], tape)
  | k + 1, tape =>
    let r := consume tape
    let rest := sampleSymbols k r.2
    (choiceFrom SYMBOLS_BASIC r.1 :: rest.1, rest.2)

/-- One assembly pass of generate_passphrase (everything before the entropy
check): sample word_count words (capitalized if requested), join with the
separator; if add_numbers, append separator plus 2-4 random digits; if
add_symbols, append separator plus 1-2 random basic symbols. -/
def passphrase_attempt (wordCount : Nat) (sep : List Char) (cap addNumbers addSymbols : Bool)
    (tape : List Nat) : List Char × List Nat :=
  let ws := pickWords cap wordCount tape
  let phrase := List.intercalate sep ws.1
  let n1 :=
    if addNumbers then
      let r := consume ws.2
      let nd := randBelow 3 r.1 + 2
      let ds := sampleDigits nd r.2
      (phrase ++ sep ++ ds.1, ds.2)
    else (phrase, ws.2)
  if addSymbols then
    let r := consume n1.2
    let sc := randBelow 2 r.1 + 1
    let ss := sampleSymbols sc r.2
    (n1.1 ++ sep ++ ss.1, ss.2)
  else n1

/-- The error raised by generate_passphrase (a ValueError in Python). -/
inductive PassError where
  | wordCountTooSmall
deriving DecidableEq

/-- generate_passphrase, relationally: raise for word_count < 2; otherwise
assemble a phrase from the tape and return it if its entropy reaches
min_entropy, else recurse on the remaining tape with word_count+1 and
add_symbols forced true. -/
inductive GeneratePassphrase (sep : List Char) (cap addNumbers : Bool) (minEntropy : ℚ) :
    Nat → Bool → List Nat → Except PassError (List Char) → Prop where
  | err (wc : Nat) (addS : Bool) (tape : List Nat) (h : wc < 2) :
      GeneratePassphrase sep cap addNumbers minEntropy wc addS tape
        (Except.error PassError.wordCountTooSmall)
  | done (wc : Nat) (addS : Bool) (tape : List Nat) (h : 2 ≤ wc)
      (hent : (minEntropy : ℝ) ≤
        calculate_entropy (passphrase_attempt wc sep cap addNumbers addS tape).1) :
      GeneratePassphrase sep cap addNumbers minEntropy wc addS tape
        (Except.ok (passphrase_attempt wc sep cap addNumbers addS tape).1)
  | recurse (wc : Nat) (addS : Bool) (tape : List Nat) (r : Except PassError (List Char))
      (h : 2 ≤ wc)
      (hent : calculate_entropy (passphrase_attempt wc sep cap addNumbers addS tape).1 <
        (minEntropy : ℝ))
      (hrest : GeneratePassphrase sep cap addNumbers minEntropy (wc + 1) true
        (passphrase_attempt wc sep cap addNumbers addS tape).2 r) :
      GeneratePassphrase sep cap addNumbers minEntropy wc addS tape r

deriving instance DecidableEq for Except

/-- Spec-side pattern penalty, following the specification text: the product of
0.8 per matching common-pattern regex, 0.1 if the lowercased string is in the
weak-password set, and 0.7 if a keyboard-row substring (or its reverse) is
present, floored at 0.1. -/
def penalty_spec (password : List Char) : ℚ :=
  max ((8 / 10) ^ (COMMON_PATTERNS.countP (fun m => m password)) *
    (if toLowerStr password ∈ WEAK_PASSWORDS then 1 / 10 else 1) *
    (if has_keyboard_pattern password then 7 / 10 else 1)) (1 / 10)

/-- Spec-side entropy, following the specification text: length times log2 of
the presence-detected charset size, times the pattern penalty, and 0 when the
charset size is 0. -/
noncomputable def entropy_spec (password : List Char) : ℝ :=
  if charset_size password = 0 then 0
  else (password.length : ℝ) * Real.logb 2 (charset_size password) * (penalty_spec password : ℝ)

/-- Trivial external primitives, used to instantiate witnesses. -/
def extTrivial : Externals :=
  { md5 := fun _ => ("")
    sha1 := fun _ => ("")
    sha256 := fun _ => ("")
    fmt0 := fun _ => ("")
    fmt1 := fun _ => ("") }

/-- Witness policy for C1: length exactly 4, one character of each class,
entropy threshold 0. -/
def wit_policy : PasswordPolicy := { min_length := 4, max_length := 4, entropy_threshold := 0 }

/-- Witness tape for C1: length draw, the four class picks a/B/3/!, and the
three identity shuffle steps. -/
def wit_tape : List Nat := [0, 0, 1, 3, 0, 3, 2, 1]

/-- The password produced by wit_tape under wit_policy. -/
def wit_pw : List Char := ("aB3!").data

/-- Counterexample policy for C3: one required uppercase character, ambiguous
characters excluded. -/
def c3_policy : PasswordPolicy :=
  { min_length := 1, max_length := 1, require_uppercase := true, require_lowercase := false,
    require_digits := false, require_symbols := false, min_uppercase := 1, min_lowercase := 0,
    min_digits := 0, min_symbols := 0, exclude_ambiguous := true }

/-- The four-character pattern aB3! that seeds the C10 construction. -/
def patChars : List Char := ("aB3!").data

/-- 128 characters of the cyclic pattern aB3! — long enough to cover every
candidate length drawn for the standard policy. -/
def baseChars : List Char := (List.range 128).map (fun k => patChars.getD (k % 4) (' '))

/-- Indices of a, B, 3, ! in the 88-character standard fill charset. -/
def fillIdx : List Nat := [0, 27, 55, 62]

/-- Fill-tape values continuing the cyclic pattern from position j for m steps. -/
def idxTapeFrom (j m : Nat) : List Nat := (List.range m).map (fun k => fillIdx.getD ((j + k) % 4) 0)

/-- Shuffle-tape values i, i-1, ..., 1 that make every Fisher-Yates step swap a
position with itself. -/
def fyTape (k : Nat) : List Nat := ((List.range k).reverse).map (fun i => i + 1)

/-- The candidate length used in the C10 existence construction. -/
def c10Len (n : Nat) : Nat := max (n + 1) 8

/-- The full randomness tape of the C10 existence construction. -/
def c10Tape (n : Nat) : List Nat :=
  (c10Len n - n) :: 0 :: 1 :: 3 :: 0 :: (idxTapeFrom 4 (c10Len n - 4) ++ fyTape (c10Len n - 1))

/-- 192 characters of the cyclic pattern aB3!: a pattern-free string long enough
that its entropy (192 * log2 88 > 1024) overflows the float range in
_estimate_crack_time. -/
def bigChars : List Char := (List.range 192).map (fun k => patChars.getD (k % 4) (' '))

/-- The digit suffix sampled by generate_passphrase (when add_numbers). -/
def phraseDigits (wordCount : Nat) (cap : Bool) (tape : List Nat) : List Char :=
  let ws := pickWords cap wordCount tape
  let r := consume ws.2
  (sampleDigits (randBelow 3 r.1 + 2) r.2).1

/-- The symbol suffix sampled by generate_passphrase (when add_symbols). -/
def phraseSymbols (wordCount : Nat) (cap addNumbers : Bool) (tape : List Nat) : List Char :=
  let ws := pickWords cap wordCount tape
  let t :=
    if addNumbers then
      let r := consume ws.2
      (sampleDigits (randBelow 3 r.1 + 2) r.2).2
    else ws.2
  let r := consume t
  (sampleSymbols (randBelow 2 r.1 + 1) r.2).1

/-- The 88-character fill charset of the standard policy (all classes enabled,
no exclusions). -/
def CHARSET_STD : List Char := LOWERCASE ++ UPPERCASE ++ DIGITS ++ SYMBOLS_EXTENDED

theorem pattern_penalty_pos (password : List Char) : 0 < pattern_penalty password := by
  have h : (1 / 10 : ℚ) ≤ pattern_penalty password := le_max_right _ _
  linarith

theorem calculate_entropy_nonneg (password : List Char) : 0 ≤ calculate_entropy password := by
  unfold calculate_entropy
  split
  · exact le_refl 0
  · apply mul_nonneg
    · split
      · exact le_refl 0
      · refine mul_nonneg (by positivity) (Real.logb_nonneg (by norm_num) ?_)
        exact_mod_cast Nat.one_le_iff_ne_zero.mpr (by assumption)
    · exact_mod_cast (pattern_penalty_pos password).le

theorem foldl_penalty_eq (s : List Char) (l : List (List Char → Bool)) (a : ℚ) :
    l.foldl (fun acc m => if m s then acc * (8 / 10) else acc) a =
      a * (8 / 10) ^ (l.countP (fun m => m s)) := by
  induction l generalizing a with
  | nil => simp
  | cons m l ih =>
    simp only [List.foldl_cons, List.countP_cons, ih]
    cases hm : m s <;> simp [hm] <;> ring

theorem pattern_penalty_eq_spec (password : List Char) :
    pattern_penalty password = penalty_spec password := by
  unfold pattern_penalty penalty_spec
  rw [foldl_penalty_eq]
  split <;> split <;> (congr 1; ring)

/-- Claim C5: for every string, calculate_entropy equals
length * log2(charset_size) * penalty, where the charset size is the
presence-detected sum (with zero entropy when it is 0) and the penalty is the
product of 0.8 per matching common pattern, 0.1 for a weak password, 0.7 for a
keyboard pattern, floored at 0.1 (the entropy_spec / penalty_spec reading of
the specification). -/
theorem c5_entropy_formula (password : List Char) :
    calculate_entropy password = entropy_spec password := by
  unfold calculate_entropy entropy_spec
  by_cases hemp : password = []
  · subst hemp
    rw [if_pos rfl, if_pos (by decide : charset_size ([] : List Char) = 0)]
  · rw [if_neg hemp]
    by_cases hcs : charset_size password = 0
    · rw [if_pos hcs, if_pos hcs, zero_mul]
    · rw [if_neg hcs, if_neg hcs, pattern_penalty_eq_spec, mul_assoc]

theorem generate_candidate_error_sub (policy : PasswordPolicy) (tape : List Nat) (e : GenError)
    (h : (generate_candidate policy tape).1 = Except.error e) :
    e = GenError.badRange ∨ e = GenError.emptyCharset := by
  unfold generate_candidate at h
  split at h
  · left
    injection h with h
    exact h.symm
  · dsimp only at h
    split at h
    · right
      injection h with h
      exact h.symm
    · cases h

theorem RunAttempts_ne_config {policy : PasswordPolicy} {n : Nat} {tape : List Nat}
    {r : Except GenError (List Char)} (h : RunAttempts policy n tape r) :
    r ≠ Except.error GenError.configInfeasible := by
  induction h with
  | exhausted tape => decide
  | candidateError n tape e hce =>
    rcases generate_candidate_error_sub _ _ _ hce with rfl | rfl <;> decide
  | accept n tape c hce hv => simp
  | reject n tape c r hce hv hrest ih => exact ih

/-- Claim C2: with the policy supplied (no length override), if the sum of the
per-class minimums exceeds min_length then generate_password yields the
configuration error — for every tape, i.e. before and independent of any random
sampling, and no other outcome is possible; if the sum is within min_length,
the configuration error is never raised (any error is the empty-charset, the
bad-range, or the exhausted-retries error). -/
theorem c2_feasibility_gate (policy : PasswordPolicy) (complexity : PasswordComplexity)
    (tape : List Nat) :
    (policy.min_length < sum_minimums policy →
      GeneratePassword (some policy) none complexity tape
        (Except.error GenError.configInfeasible) ∧
      ∀ r, GeneratePassword (some policy) none complexity tape r →
        r = Except.error GenError.configInfeasible) ∧
    (sum_minimums policy ≤ policy.min_length →
      ∀ r, GeneratePassword (some policy) none complexity tape r →
        r ≠ Except.error GenError.configInfeasible) := by
  have hres : resolve_policy (some policy) none complexity = policy := rfl
  constructor
  · intro h
    constructor
    · show GeneratePassword (some policy) none complexity tape _
      unfold GeneratePassword
      rw [hres, if_pos h]
    · intro r hr
      unfold GeneratePassword at hr
      rw [hres, if_pos h] at hr
      exact hr
  · intro h r hr
    unfold GeneratePassword at hr
    rw [hres, if_neg (not_lt.mpr h)] at hr
    exact RunAttempts_ne_config hr

theorem c2_feasibility_gate_witness :
    GeneratePassword (some { min_length := 3 }) none PasswordComplexity.standard []
      (Except.error GenError.configInfeasible) ∧
    ∀ r, GeneratePassword (some {}) none PasswordComplexity.standard [] r →
      r ≠ Except.error GenError.configInfeasible :=
  ⟨((c2_feasibility_gate { min_length := 3 } PasswordComplexity.standard []).1
      (by decide)).1,
    (c2_feasibility_gate {} PasswordComplexity.standard []).2 (by decide)⟩

/-- Claim C8 counterexample: generate_password with an explicit length argument
writes to the passed policy object — resolving the standard default policy with
length 20 changes it (min_length 12 becomes 20). -/
theorem c8_counterexample :
    resolve_policy (some (get_default_policy PasswordComplexity.standard)) (some 20)
      PasswordComplexity.standard ≠ get_default_policy PasswordComplexity.standard := by
  decide

/-- Claim C8 (amended): the policy object is unchanged when no explicit length
argument is passed; when length n is passed, exactly min_length (set to n) and
max_length (set to max n max_length) are overwritten and every other field is
unchanged. -/
theorem c8_amended (p : PasswordPolicy) (lengthArg : Option Nat)
    (complexity : PasswordComplexity) :
    (lengthArg = none → resolve_policy (some p) lengthArg complexity = p) ∧
    (∀ n, lengthArg = some n →
      (resolve_policy (some p) lengthArg complexity).min_length = n ∧
      (resolve_policy (some p) lengthArg complexity).max_length = max n p.max_length ∧
      (resolve_policy (some p) lengthArg complexity).require_uppercase = p.require_uppercase ∧
      (resolve_policy (some p) lengthArg complexity).require_lowercase = p.require_lowercase ∧
      (resolve_policy (some p) lengthArg complexity).require_digits = p.require_digits ∧
      (resolve_policy (some p) lengthArg complexity).require_symbols = p.require_symbols ∧
      (resolve_policy (some p) lengthArg complexity).min_uppercase = p.min_uppercase ∧
      (resolve_policy (some p) lengthArg complexity).min_lowercase = p.min_lowercase ∧
      (resolve_policy (some p) lengthArg complexity).min_digits = p.min_digits ∧
      (resolve_policy (some p) lengthArg complexity).min_symbols = p.min_symbols ∧
      (resolve_policy (some p) lengthArg complexity).exclude_ambiguous = p.exclude_ambiguous ∧
      (resolve_policy (some p) lengthArg complexity).exclude_similar = p.exclude_similar ∧
      (resolve_policy (some p) lengthArg complexity).exclude_sequential = p.exclude_sequential ∧
      (resolve_policy (some p) lengthArg complexity).exclude_repetitive = p.exclude_repetitive ∧
      (resolve_policy (some p) lengthArg complexity).max_consecutive = p.max_consecutive ∧
      (resolve_policy (some p) lengthArg complexity).exclude_dictionary = p.exclude_dictionary ∧
      (resolve_policy (some p) lengthArg complexity).custom_exclusions = p.custom_exclusions ∧
      (resolve_policy (some p) lengthArg complexity).entropy_threshold = p.entropy_threshold) := by
  constructor
  · rintro rfl; rfl
  · rintro n rfl
    exact ⟨rfl, rfl, rfl, rfl, rfl, rfl, rfl, rfl, rfl, rfl, rfl, rfl, rfl, rfl, rfl, rfl,
      rfl, rfl⟩

theorem c8_amended_witness :
    (resolve_policy (some (get_default_policy PasswordComplexity.standard)) (some 20)
      PasswordComplexity.standard).min_length = 20 :=
  ((c8_amended (get_default_policy PasswordComplexity.standard) (some 20)
    PasswordComplexity.standard).2 20 rfl).1

/-- Claim C7 counterexample: analyze_password called without a policy returns a
policy_compliance mapping with 11 rule entries (checked against the substituted
standard default policy), not the empty mapping. -/
theorem c7_counterexample :
    (analyze_password extTrivial 0 (("abc").data) none).policy_compliance ≠ [] := by
  show check_policy_compliance (("abc").data)
    (get_default_policy PasswordComplexity.standard) ≠ []
  simp [check_policy_compliance]

/-- Claim C7 (amended): when no policy is given, analyze_password substitutes
the standard default policy and the policy_compliance field is the full 11-rule
compliance mapping for that policy — never the empty mapping. -/
theorem c7_amended (ext : Externals) (now : ℝ) (password : List Char) :
    (analyze_password ext now password none).policy_compliance =
      check_policy_compliance password (get_default_policy PasswordComplexity.standard) ∧
    ((analyze_password ext now password none).policy_compliance).length = 11 :=
  ⟨rfl, rfl⟩

/-- Claim C6 (code bug): the hash_analysis field never contains the MD5/SHA-256
digests: the sha512 line subscripts the hash object and raises, so the except
branch returns the error dictionary for every password. -/
theorem c6_hash_analysis_error (ext : Externals) (now : ℝ) (password : List Char)
    (policyArg : Option PasswordPolicy) :
    (analyze_password ext now password policyArg).hash_analysis =
      [(("error"), ("Hash generation failed"))] ∧
    ∀ v, (("md5"), v) ∉ (analyze_password ext now password policyArg).hash_analysis ∧
      (("sha256"), v) ∉ (analyze_password ext now password policyArg).hash_analysis := by
  refine ⟨rfl, fun v => ⟨?_, ?_⟩⟩ <;>
  · intro hmem
    rw [(rfl : (analyze_password ext now password policyArg).hash_analysis =
      [(("error"), ("Hash generation failed"))])] at hmem
    have h := List.mem_singleton.mp hmem
    have h1 := congrArg Prod.fst h
    simp only [Prod.fst] at h1
    exact absurd h1 (by decide)

theorem pattern_penalty_empty : pattern_penalty [] = 1 := by
  unfold pattern_penalty
  simp only [foldl_penalty_eq, List.countP_eq_zero.mpr (by decide : ∀ m ∈ COMMON_PATTERNS,
    ¬(fun m => m ([] : List Char)) m = true),
    if_neg (by decide : ¬(toLowerStr [] ∈ WEAK_PASSWORDS)),
    if_neg (by decide : ¬(has_keyboard_pattern [] = true))]
  rw [max_eq_left (by norm_num)]
  norm_num

theorem strength_score_empty : calculate_strength_score [] (calculate_entropy []) = 10 := by
  have hent : calculate_entropy [] = 0 := by unfold calculate_entropy; rw [if_pos rfl]
  rw [hent]
  unfold calculate_strength_score
  rw [pattern_penalty_empty]
  norm_num [List.any_nil]

theorem RunAttempts_ok_validates {policy : PasswordPolicy} {n : Nat} {tape : List Nat}
    {r : Except GenError (List Char)} (h : RunAttempts policy n tape r) :
    ∀ c, r = Except.ok c → validate_password c policy := by
  induction h with
  | exhausted tape => intro c hc; cases hc
  | candidateError n tape e hce => intro c hc; cases hc
  | accept n tape c hce hv =>
    intro c2 hc
    injection hc with hc
    exact hc ▸ hv
  | reject n tape c r hce hv hrest ih => exact ih

/-- Claim C1: for every policy accepted by the feasibility check, whenever
generate_password returns a password, that password satisfies _validate_password
for that policy: length within [min_length, max_length], per-class counts at
least the minimums, the enabled sequential/repetitive/dictionary exclusions
hold, and the entropy is at least entropy_threshold (validate_password is
exactly that conjunction). -/
theorem c1_generate_validates (policy : PasswordPolicy) (complexity : PasswordComplexity)
    (tape : List Nat) (p : List Char)
    (hfeas : sum_minimums policy ≤ policy.min_length)
    (hgen : GeneratePassword (some policy) none complexity tape (Except.ok p)) :
    validate_password p policy := by
  unfold GeneratePassword at hgen
  rw [if_neg (show ¬ (resolve_policy (some policy) none complexity).min_length <
    sum_minimums (resolve_policy (some policy) none complexity) from not_lt.mpr hfeas)] at hgen
  exact RunAttempts_ok_validates hgen p rfl

theorem wit_validate : validate_password wit_pw wit_policy := by
  refine ⟨⟨by decide, by decide⟩, by decide, by decide, by decide, by decide,
    fun _ => by decide, fun _ => by decide, fun _ => by decide, ?_⟩
  show ((0 : ℚ) : ℝ) ≤ calculate_entropy wit_pw
  rw [Rat.cast_zero]
  exact calculate_entropy_nonneg wit_pw

theorem c1_generate_validates_witness : validate_password wit_pw wit_policy :=
  c1_generate_validates wit_policy PasswordComplexity.standard wit_tape wit_pw (by decide)
    (by
      unfold GeneratePassword
      rw [if_neg (by decide)]
      exact RunAttempts.accept 999 wit_tape wit_pw (by decide) wit_validate)

/-- Claim C3 counterexample: with exclude_ambiguous set and one required
uppercase character, an execution of candidate generation samples the ambiguous
character O as the required seed and produces the candidate consisting of it:
required seeds are drawn from the full class charset, before exclusions. -/
theorem c3_counterexample :
    c3_policy.exclude_ambiguous = true ∧
    (generate_candidate c3_policy [0, 14]).1 = Except.ok [('O')] ∧
    ('O') ∈ AMBIGUOUS :=
  ⟨rfl, by decide, by decide⟩

theorem getD_mod_mem {α : Type} (l : List α) (d : α) (v : Nat) (hl : l ≠ []) :
    l.getD (v % l.length) d ∈ l := by
  have hlen : 0 < l.length := List.length_pos.mpr hl
  have hv : v % l.length < l.length := Nat.mod_lt _ hlen
  rw [List.getD_eq_getElem?_getD, List.getElem?_eq_getElem hv, Option.getD_some]
  exact List.getElem_mem hv

theorem choiceFrom_mem (l : List Char) (v : Nat) (hl : l ≠ []) : choiceFrom l v ∈ l :=
  getD_mod_mem l (' ') v hl

theorem sampleClass_mem (cls : List Char) (hcls : cls ≠ []) :
    ∀ (k : Nat) (tape : List Nat), ∀ ch ∈ (sampleClass cls k tape).1, ch ∈ cls := by
  intro k
  induction k with
  | zero => intro tape ch hch; simp [sampleClass] at hch
  | succ k ih =>
    intro tape ch hch
    simp only [sampleClass] at hch
    rcases List.mem_cons.mp hch with rfl | h
    · exact choiceFrom_mem cls _ hcls
    · exact ih _ ch h

theorem buildRequired_mem (policy : PasswordPolicy) (tape : List Nat) :
    ∀ ch ∈ (buildRequired policy tape).1, ch ∈ buildCharset policy := by
  intro ch hch
  unfold buildRequired at hch
  unfold buildCharset
  dsimp only at hch
  simp only [List.mem_append] at hch ⊢
  rcases hch with ((h | h) | h) | h
  · by_cases hf : policy.require_lowercase = true
    · rw [if_pos hf] at h
      have hm := sampleClass_mem LOWERCASE (by decide) _ _ ch h
      rw [if_pos hf]
      exact Or.inl (Or.inl (Or.inl hm))
    · rw [if_neg hf] at h
      simp at h
  · by_cases hf : policy.require_uppercase = true
    · rw [if_pos hf] at h
      have hm := sampleClass_mem UPPERCASE (by decide) _ _ ch h
      rw [if_pos hf]
      exact Or.inl (Or.inl (Or.inr hm))
    · rw [if_neg hf] at h
      simp at h
  · by_cases hf : policy.require_digits = true
    · rw [if_pos hf] at h
      have hm := sampleClass_mem DIGITS (by decide) _ _ ch h
      rw [if_pos hf]
      exact Or.inl (Or.inr hm)
    · rw [if_neg hf] at h
      simp at h
  · by_cases hf : policy.require_symbols = true
    · rw [if_pos hf] at h
      have hm := sampleClass_mem SYMBOLS_EXTENDED (by decide) _ _ ch h
      rw [if_pos hf]
      exact Or.inr hm
    · rw [if_neg hf] at h
      simp at h

theorem fillLoop_mem (charset : List Char) (hcs : charset ≠ []) :
    ∀ (fuel : Nat) (acc : List Char) (tape : List Nat),
      ∀ ch ∈ (fillLoop charset fuel acc tape).1, ch ∈ acc ∨ ch ∈ charset := by
  intro fuel
  induction fuel with
  | zero => intro acc tape ch hch; exact Or.inl hch
  | succ fuel ih =>
    intro acc tape ch hch
    simp only [fillLoop] at hch
    rcases ih _ _ ch hch with h | h
    · rcases List.mem_append.mp h with h2 | h2
      · exact Or.inl h2
      · exact Or.inr (List.mem_singleton.mp h2 ▸ choiceFrom_mem charset _ hcs)
    · exact Or.inr h

/-- Claim C3 (amended): required seeds are drawn from the enabled classes' full
charsets (exclusions are not applied to them — only the fill characters are
restricted to the post-exclusion charset), so seed characters can be excluded
characters. -/
theorem c3_amended (policy : PasswordPolicy) (tape : List Nat) :
    (∀ ch ∈ (buildRequired policy tape).1, ch ∈ buildCharset policy) ∧
    (∀ (target : Nat) (t : List Nat), applyExclusions policy (buildCharset policy) ≠ [] →
      ∀ ch ∈ (fillChars (applyExclusions policy (buildCharset policy))
          (buildRequired policy tape).1 target t).1,
        ch ∈ (buildRequired policy tape).1 ∨
          ch ∈ applyExclusions policy (buildCharset policy)) := by
  refine ⟨buildRequired_mem policy tape, ?_⟩
  intro target t hne ch hch
  exact fillLoop_mem _ hne _ _ _ ch hch

theorem c3_amended_witness : ('a') ∈ buildCharset ({} : PasswordPolicy) :=
  (c3_amended {} [0, 1, 3, 0]).1 ('a') (by decide)

theorem WORDLIST_ne_nil : WORDLIST ≠ [] := by
  unfold WORDLIST
  exact List.cons_ne_nil _ _

theorem choiceWord_mem (v : Nat) : choiceWord v ∈ WORDLIST :=
  getD_mod_mem WORDLIST [] v WORDLIST_ne_nil

theorem pickWords_length (cap : Bool) : ∀ (k : Nat) (tape : List Nat),
    ((pickWords cap k tape).1).length = k := by
  intro k
  induction k with
  | zero => intro tape; rfl
  | succ k ih =>
    intro tape
    simp only [pickWords, List.length_cons, ih]

theorem pickWords_words (cap : Bool) : ∀ (k : Nat) (tape : List Nat),
    ((pickWords cap k tape).1).all
      (fun w => WORDLIST.any
        (fun w0 => decide (w = if cap then capitalizeStr w0 else w0))) = true := by
  intro k
  induction k with
  | zero => intro tape; rfl
  | succ k ih =>
    intro tape
    simp only [pickWords, List.all_cons, Bool.and_eq_true]
    refine ⟨?_, ih _⟩
    rw [List.any_eq_true]
    refine ⟨choiceWord (consume tape).1, choiceWord_mem _, ?_⟩
    cases cap <;> simp

theorem isDigitC_digitChar (v : Nat) : isDigitC (digitChar v) = true := by
  unfold digitChar
  have h : v % 10 < 10 := Nat.mod_lt _ (by norm_num)
  set m := v % 10 with hm
  interval_cases m <;> decide

theorem sampleDigits_length : ∀ (k : Nat) (tape : List Nat),
    ((sampleDigits k tape).1).length = k := by
  intro k
  induction k with
  | zero => intro tape; rfl
  | succ k ih =>
    intro tape
    simp only [sampleDigits, List.length_cons, ih]

theorem sampleDigits_digits : ∀ (k : Nat) (tape : List Nat),
    ((sampleDigits k tape).1).all isDigitC = true := by
  intro k
  induction k with
  | zero => intro tape; rfl
  | succ k ih =>
    intro tape
    simp only [sampleDigits, List.all_cons, Bool.and_eq_true]
    exact ⟨isDigitC_digitChar _, ih _⟩

theorem sampleSymbols_length : ∀ (k : Nat) (tape : List Nat),
    ((sampleSymbols k tape).1).length = k := by
  intro k
  induction k with
  | zero => intro tape; rfl
  | succ k ih =>
    intro tape
    simp only [sampleSymbols, List.length_cons, ih]

theorem sampleSymbols_basic : ∀ (k : Nat) (tape : List Nat),
    ((sampleSymbols k tape).1).all (fun c => SYMBOLS_BASIC.contains c) = true := by
  intro k
  induction k with
  | zero => intro tape; rfl
  | succ k ih =>
    intro tape
    simp only [sampleSymbols, List.all_cons, Bool.and_eq_true]
    refine ⟨?_, ih _⟩
    have hm := choiceFrom_mem SYMBOLS_BASIC (consume tape).1 (by decide)
    simpa [List.contains] using hm

theorem passphrase_attempt_shape (wc : Nat) (sep : List Char) (cap addN addS : Bool)
    (tape : List Nat) :
    (passphrase_attempt wc sep cap addN addS tape).1 =
      List.intercalate sep (pickWords cap wc tape).1 ++
      (if addN then sep ++ phraseDigits wc cap tape else []) ++
      (if addS then sep ++ phraseSymbols wc cap addN tape else []) := by
  unfold passphrase_attempt phraseDigits phraseSymbols
  cases addN <;> cases addS <;> simp [List.append_assoc]

theorem phraseDigits_spec (wc : Nat) (cap : Bool) (tape : List Nat) :
    (2 ≤ (phraseDigits wc cap tape).length ∧ (phraseDigits wc cap tape).length ≤ 4) ∧
    (phraseDigits wc cap tape).all isDigitC = true := by
  unfold phraseDigits
  refine ⟨?_, sampleDigits_digits _ _⟩
  rw [sampleDigits_length]
  unfold randBelow
  have h := Nat.mod_lt (consume (pickWords cap wc tape).2).1 (show 0 < 3 by norm_num)
  omega

theorem phraseSymbols_spec (wc : Nat) (cap addN : Bool) (tape : List Nat) :
    (1 ≤ (phraseSymbols wc cap addN tape).length ∧ (phraseSymbols wc cap addN tape).length ≤ 2) ∧
    (phraseSymbols wc cap addN tape).all (fun c => SYMBOLS_BASIC.contains c) = true := by
  unfold phraseSymbols
  refine ⟨?_, sampleSymbols_basic _ _⟩
  rw [sampleSymbols_length]
  unfold randBelow
  cases addN
  · have h := Nat.mod_lt (consume (pickWords cap wc tape).2).1 (show 0 < 2 by norm_num)
    omega
  · have h := Nat.mod_lt (consume ((sampleDigits (randBelow 3
      (consume (pickWords cap wc tape).2).1 + 2) (consume (pickWords cap wc tape).2).2)).2).1
      (show 0 < 2 by norm_num)
    omega

/-- Claim C9: generate_passphrase raises for word_count < 2; and whenever the
assembled phrase's entropy already meets min_entropy (no recursion), the result
is exactly word_count sampled words joined by the separator, followed, when
add_numbers is set, by the separator plus 2-4 random digits, and, when
add_symbols is set, by the separator plus 1-2 random basic symbols. -/
theorem c9_passphrase_shape (wc : Nat) (sep : List Char) (cap addNumbers addS : Bool)
    (minEntropy : ℚ) (tape : List Nat) (r : Except PassError (List Char))
    (hrel : GeneratePassphrase sep cap addNumbers minEntropy wc addS tape r) :
    (wc < 2 → r = Except.error PassError.wordCountTooSmall) ∧
    (2 ≤ wc →
      (minEntropy : ℝ) ≤
        calculate_entropy (passphrase_attempt wc sep cap addNumbers addS tape).1 →
      r = Except.ok (List.intercalate sep (pickWords cap wc tape).1 ++
          (if addNumbers then sep ++ phraseDigits wc cap tape else []) ++
          (if addS then sep ++ phraseSymbols wc cap addNumbers tape else [])) ∧
      ((pickWords cap wc tape).1).length = wc ∧
      ((pickWords cap wc tape).1).all
        (fun w => WORDLIST.any
          (fun w0 => decide (w = if cap then capitalizeStr w0 else w0))) = true ∧
      (addNumbers = true → (2 ≤ (phraseDigits wc cap tape).length ∧
        (phraseDigits wc cap tape).length ≤ 4) ∧
        (phraseDigits wc cap tape).all isDigitC = true) ∧
      (addS = true → (1 ≤ (phraseSymbols wc cap addNumbers tape).length ∧
        (phraseSymbols wc cap addNumbers tape).length ≤ 2) ∧
        (phraseSymbols wc cap addNumbers tape).all
          (fun c => SYMBOLS_BASIC.contains c) = true)) := by
  cases hrel with
  | err _ _ _ h =>
    refine ⟨fun _ => rfl, fun h2 _ => absurd h2 (by omega)⟩
  | done _ _ _ h hent =>
    refine ⟨fun hlt => absurd h (by omega), fun _ _ => ?_⟩
    refine ⟨congrArg Except.ok (passphrase_attempt_shape wc sep cap addNumbers addS tape),
      pickWords_length cap wc tape, pickWords_words cap wc tape,
      fun _ => phraseDigits_spec wc cap tape,
      fun _ => phraseSymbols_spec wc cap addNumbers tape⟩
  | recurse _ _ _ _ h hent hrest =>
    refine ⟨fun hlt => absurd h (by omega), fun _ hge => absurd hge (by push_neg; exact hent)⟩

theorem c9_passphrase_shape_witness :
    (Except.ok (passphrase_attempt 2 [] false false false []).1 :
        Except PassError (List Char)) =
      Except.ok (List.intercalate [] (pickWords false 2 []).1 ++
        (if false then [] ++ phraseDigits 2 false [] else []) ++
        (if false then [] ++ phraseSymbols 2 false false [] else [])) ∧
    ((pickWords false 2 []).1).length = 2 ∧
    ((pickWords false 2 []).1).all
      (fun w => WORDLIST.any
        (fun w0 => decide (w = if false then capitalizeStr w0 else w0))) = true ∧
    (false = true → (2 ≤ (phraseDigits 2 false []).length ∧
      (phraseDigits 2 false []).length ≤ 4) ∧
      (phraseDigits 2 false []).all isDigitC = true) ∧
    (false = true → (1 ≤ (phraseSymbols 2 false false []).length ∧
      (phraseSymbols 2 false false []).length ≤ 2) ∧
      (phraseSymbols 2 false false []).all (fun c => SYMBOLS_BASIC.contains c) = true) := by
  have hent : ((0 : ℚ) : ℝ) ≤
      calculate_entropy (passphrase_attempt 2 [] false false false []).1 := by
    rw [Rat.cast_zero]
    exact calculate_entropy_nonneg _
  exact (c9_passphrase_shape 2 [] false false false 0 []
    (Except.ok (passphrase_attempt 2 [] false false false []).1)
    (GeneratePassphrase.done 2 false [] (by norm_num) hent)).2 (by norm_num) hent

theorem mem_take_of_le {c : Char} {x : List Char} {j L : Nat} (hjL : j ≤ L)
    (h : c ∈ x.take j) : c ∈ x.take L := by
  have heq : x.take j = (x.take L).take j := by rw [List.take_take, Nat.min_eq_left hjL]
  rw [heq] at h
  exact List.mem_of_mem_take h

theorem take_decomp (x : List Char) (j L : Nat) (h : j ≤ L) :
    x.take L = x.take j ++ (x.take L).drop j := by
  conv_lhs => rw [← List.take_append_drop j (x.take L)]
  rw [List.take_take, Nat.min_eq_left h]

theorem baseChars_len : baseChars.length = 128 := by decide

theorem lowerBase_len : (toLowerStr baseChars).length = 128 := by decide

theorem baseChars_take4 : baseChars.take 4 = patChars := by decide

theorem lowerBase_take4 : (toLowerStr baseChars).take 4 = ("ab3!").data := by decide

theorem base_no_ordrun : scanTriples ordRun baseChars = false := by decide

theorem base_no_eq_pair : scanPairs (fun a b => a == b) baseChars = false := by decide

theorem base_no_ci_triple :
    scanTriples (fun a b c =>
      !(a == '\n') && (lowerC a == lowerC b) && (lowerC a == lowerC c)) baseChars = false := by
  decide

theorem base_no_year :
    scanQuads (fun a b c d => ((a == '1' && b == '9') || (a == '2' && b == '0'))
      && isDigitC c && isDigitC d) baseChars = false := by decide

theorem base_no_digits4 :
    scanQuads (fun a b c d => isDigitC a && isDigitC b && isDigitC c && isDigitC d)
      baseChars = false := by decide

theorem base_no_sequences :
    ∀ seq ∈ SEQUENCES, substrB seq (toLowerStr baseChars) = false := by decide

theorem base_no_seqchunk :
    ∀ w ∈ [("abc").data, ("123").data, ("qwe").data, ("asd").data, ("zxc").data],
      substrB w (toLowerStr baseChars) = false := by decide

theorem base_no_words :
    ∀ w ∈ [("password").data, ("admin").data, ("user").data, ("login").data, ("test").data],
      substrB w (toLowerStr baseChars) = false := by decide

theorem base_no_keyboard :
    ∀ pat ∈ KEYBOARD_PATTERNS, substrB pat (toLowerStr baseChars) = false ∧
      substrB pat.reverse (toLowerStr baseChars) = false := by decide

theorem weak_no_bang : ∀ w ∈ WEAK_PASSWORDS, ('!') ∉ w := by decide

theorem wordlist_all_lower_bool : WORDLIST.all (fun w => w.all isLowerC) = true := by decide

theorem wordlist_all_lower : ∀ w ∈ WORDLIST, w.all isLowerC = true := by
  have h := wordlist_all_lower_bool
  rw [List.all_eq_true] at h
  exact h

theorem lowerBase_windows : ∀ i ∈ List.range 125,
    ('3') ∈ ((toLowerStr baseChars).drop i).take 4 := by decide

theorem idxTapeFrom_succ (j m : Nat) :
    idxTapeFrom j (m + 1) = fillIdx.getD (j % 4) 0 :: idxTapeFrom (j + 1) m := by
  unfold idxTapeFrom
  rw [List.range_succ_eq_map]
  simp only [List.map_cons, Nat.add_zero, List.map_map]
  congr 1
  apply List.map_congr_left
  intro k hk
  simp only [Function.comp]
  congr 1
  omega

theorem getElem?_baseChars (j : Nat) (h : j < 128) :
    baseChars[j]? = some (patChars.getD (j % 4) (' ')) := by
  unfold baseChars
  rw [List.getElem?_map, List.getElem?_range h]
  rfl

theorem take_succ_base (j : Nat) (h : j < 128) :
    baseChars.take (j + 1) = baseChars.take j ++ [patChars.getD (j % 4) (' ')] := by
  rw [List.take_succ, getElem?_baseChars j h]
  rfl

theorem choice_std_fill (j : Nat) :
    choiceFrom CHARSET_STD (fillIdx.getD (j % 4) 0) = patChars.getD (j % 4) (' ') := by
  have h : j % 4 < 4 := Nat.mod_lt _ (by norm_num)
  set m := j % 4 with hm
  interval_cases m <;> decide

theorem fillLoop_cyc : ∀ (m j : Nat) (rest : List Nat), j + m ≤ 128 →
    fillLoop CHARSET_STD m (baseChars.take j) (idxTapeFrom j m ++ rest) =
      (baseChars.take (j + m), rest) := by
  intro m
  induction m with
  | zero =>
    intro j rest h
    rfl
  | succ m ih =>
    intro j rest h
    rw [idxTapeFrom_succ, List.cons_append]
    show fillLoop CHARSET_STD m
      (baseChars.take j ++ [choiceFrom CHARSET_STD (fillIdx.getD (j % 4) 0)])
      (idxTapeFrom (j + 1) m ++ rest) = _
    rw [choice_std_fill, ← take_succ_base j (by omega)]
    rw [ih (j + 1) rest (by omega)]
    rw [show j + 1 + m = j + (m + 1) from by omega]

theorem set_getElem?_self : ∀ (l : List Char) (i : Nat) (a : Char),
    l[i]? = some a → l.set i a = l := by
  intro l
  induction l with
  | nil =>
    intro i a h
    simp at h
  | cons b t ih =>
    intro i a h
    cases i with
    | zero =>
      simp only [List.getElem?_cons_zero, Option.some.injEq] at h
      rw [← h]
      rfl
    | succ i =>
      simp only [List.getElem?_cons_succ] at h
      show b :: t.set i a = b :: t
      rw [ih i a h]

theorem swapL_self (l : List Char) (i : Nat) : swapL l i i = l := by
  unfold swapL
  cases h : l[i]? with
  | none => rfl
  | some a =>
    simp only []
    rw [List.set_set, set_getElem?_self l i a h]

theorem fyTape_succ (i : Nat) : fyTape (i + 1) = (i + 1) :: fyTape i := by
  unfold fyTape
  rw [List.range_succ]
  simp

theorem fyAux_id : ∀ (i : Nat) (l : List Char) (rest : List Nat),
    fyAux l i (fyTape i ++ rest) = (l, rest) := by
  intro i
  induction i with
  | zero =>
    intro l rest
    rfl
  | succ i ih =>
    intro l rest
    rw [fyTape_succ, List.cons_append]
    show fyAux (swapL l (i + 1) (randBelow (i + 2) (i + 1))) i (fyTape i ++ rest) = (l, rest)
    rw [show randBelow (i + 2) (i + 1) = i + 1 from Nat.mod_eq_of_lt (by omega)]
    rw [swapL_self]
    exact ih l rest

theorem c10_candidate (n : Nat) (h4 : 4 ≤ n) (h128 : n < 128) :
    generate_candidate (resolve_policy none (some n) PasswordComplexity.standard) (c10Tape n) =
      (Except.ok (baseChars.take (c10Len n)), []) := by
  have hL1 : n + 1 ≤ c10Len n := le_max_left _ _
  have hL8 : 8 ≤ c10Len n := le_max_right _ _
  have hL128 : c10Len n ≤ 128 := by
    unfold c10Len
    omega
  have e1 : randBelow ((resolve_policy none (some n)
        PasswordComplexity.standard).max_length -
        (resolve_policy none (some n) PasswordComplexity.standard).min_length + 1)
        (c10Len n - n) +
      (resolve_policy none (some n) PasswordComplexity.standard).min_length = c10Len n := by
    show (c10Len n - n) % (max n 128 - n + 1) + n = c10Len n
    rw [show max n 128 = 128 from by omega]
    rw [Nat.mod_eq_of_lt (by omega)]
    omega
  have e2 : buildRequired (resolve_policy none (some n) PasswordComplexity.standard)
      (0 :: 1 :: 3 :: 0 :: (idxTapeFrom 4 (c10Len n - 4) ++ fyTape (c10Len n - 1))) =
      (patChars, idxTapeFrom 4 (c10Len n - 4) ++ fyTape (c10Len n - 1)) := rfl
  have e3 : applyExclusions (resolve_policy none (some n) PasswordComplexity.standard)
      (buildCharset (resolve_policy none (some n) PasswordComplexity.standard)) =
      CHARSET_STD := rfl
  have e5 : fillChars CHARSET_STD patChars (c10Len n)
      (idxTapeFrom 4 (c10Len n - 4) ++ fyTape (c10Len n - 1)) =
      (baseChars.take (c10Len n), fyTape (c10Len n - 1)) := by
    show fillLoop CHARSET_STD (c10Len n - 4) patChars
      (idxTapeFrom 4 (c10Len n - 4) ++ fyTape (c10Len n - 1)) = _
    rw [← baseChars_take4]
    rw [fillLoop_cyc (c10Len n - 4) 4 (fyTape (c10Len n - 1)) (by omega)]
    rw [show 4 + (c10Len n - 4) = c10Len n from by omega]
  have e6 : fisherYates (baseChars.take (c10Len n)) (fyTape (c10Len n - 1)) =
      (baseChars.take (c10Len n), []) := by
    unfold fisherYates
    rw [show (baseChars.take (c10Len n)).length = c10Len n from by
      rw [List.length_take, baseChars_len]
      omega]
    have h := fyAux_id (c10Len n - 1) (baseChars.take (c10Len n)) []
    rw [List.append_nil] at h
    exact h
  unfold generate_candidate
  rw [if_neg (show ¬ (resolve_policy none (some n)
      PasswordComplexity.standard).max_length <
      (resolve_policy none (some n) PasswordComplexity.standard).min_length from by
    show ¬ max n 128 < n
    omega)]
  simp only [c10Tape, consume]
  rw [e1, e2, e3]
  rw [if_neg (show ¬ CHARSET_STD = [] from by decide)]
  rw [e5, e6]

theorem runCheck_false_of_no_eq_pairs : ∀ (rest : List Char) (prev : Char) (cnt m : Nat),
    scanPairs (fun a b => a == b) (prev :: rest) = false → runCheck prev cnt m rest = false := by
  intro rest
  induction rest with
  | nil =>
    intro prev cnt m h
    rfl
  | cons c t ih =>
    intro prev cnt m h
    have h2 : (prev == c) = false ∧ scanPairs (fun a b => a == b) (c :: t) = false := by
      have := h
      simp only [scanPairs, Bool.or_eq_false_iff] at this
      exact this
    have hne : ¬ c = prev := by
      intro hh
      subst hh
      simp at h2
    unfold runCheck
    rw [if_neg hne]
    exact ih c 1 m h2.2

theorem toLowerStr_take (L : Nat) :
    toLowerStr (baseChars.take L) = (toLowerStr baseChars).take L := by
  unfold toLowerStr
  exact List.map_take lowerC baseChars L

theorem cyc_no_sequential (L : Nat) :
    has_sequential_pattern (baseChars.take L) = false := by
  unfold has_sequential_pattern
  rw [Bool.or_eq_false_iff]
  constructor
  · rw [toLowerStr_take]
    refine List.any_eq_false.mpr ?_
    intro seq hseq
    simp [substrB_take (base_no_sequences seq hseq)]
  · exact scanTriples_take base_no_ordrun

theorem cyc_no_repetitive (L m : Nat) :
    has_repetitive_pattern (baseChars.take L) m = false := by
  have hsp : scanPairs (fun a b => a == b) (baseChars.take L) = false :=
    scanPairs_take base_no_eq_pair
  unfold has_repetitive_pattern
  cases hcase : baseChars.take L with
  | nil => rfl
  | cons c rest =>
    rw [hcase] at hsp
    exact runCheck_false_of_no_eq_pairs rest c 1 m hsp

theorem cyc_bang_mem (L : Nat) (h4 : 4 ≤ L) : ('!') ∈ (toLowerStr baseChars).take L := by
  refine mem_take_of_le h4 ?_
  rw [lowerBase_take4]
  decide

theorem cyc_not_weak (L : Nat) (h4 : 4 ≤ L) :
    ¬ toLowerStr (baseChars.take L) ∈ WEAK_PASSWORDS := by
  rw [toLowerStr_take]
  intro hmem
  exact weak_no_bang _ hmem (cyc_bang_mem L h4)

theorem cyc_no_dictionary (L : Nat) (h4 : 4 ≤ L) :
    contains_dictionary_word (baseChars.take L) = false := by
  unfold contains_dictionary_word
  rw [Bool.or_eq_false_iff]
  constructor
  · exact decide_eq_false (cyc_not_weak L h4)
  · refine List.any_eq_false.mpr ?_
    intro w hw hcontra
    rw [Bool.and_eq_true, decide_eq_true_eq] at hcontra
    obtain ⟨hw4, hsub⟩ := hcontra
    rw [toLowerStr_take] at hsub
    have hinf : InfixOf w (toLowerStr baseChars) :=
      infixOf_take ((substrB_iff w _).mp hsub)
    obtain ⟨u, v, huv⟩ := hinf
    have hlen : u.length + w.length + v.length = 128 := by
      have := congrArg List.length huv
      rw [lowerBase_len] at this
      simp only [List.length_append] at this
      omega
    have hi : u.length ∈ List.range 125 := List.mem_range.mpr (by omega)
    have h3 := lowerBase_windows u.length hi
    rw [huv, List.append_assoc, List.drop_left, List.take_append_of_le_length hw4] at h3
    have h3w : ('3') ∈ w := List.mem_of_mem_take h3
    have := List.all_eq_true.mp (wordlist_all_lower w hw) ('3') h3w
    simp [isLowerC] at this

theorem cyc_penalty_one (L : Nat) (h4 : 4 ≤ L) :
    pattern_penalty (baseChars.take L) = 1 := by
  have h1 : regexRepeatCI (baseChars.take L) = false := scanTriples_take base_no_ci_triple
  have h2 : regexSeqChunk (baseChars.take L) = false := by
    unfold regexSeqChunk
    rw [toLowerStr_take]
    refine List.any_eq_false.mpr ?_
    intro w hw
    simp [substrB_take (base_no_seqchunk w hw)]
  have h3 : regexCommonWords (baseChars.take L) = false := by
    unfold regexCommonWords
    rw [toLowerStr_take]
    refine List.any_eq_false.mpr ?_
    intro w hw
    simp [substrB_take (base_no_words w hw)]
  have h4r : regexYear (baseChars.take L) = false := scanQuads_take base_no_year
  have h5 : regexLongDigits (baseChars.take L) = false := scanQuads_take base_no_digits4
  have hk : has_keyboard_pattern (baseChars.take L) = false := by
    unfold has_keyboard_pattern
    rw [toLowerStr_take]
    refine List.any_eq_false.mpr ?_
    intro pat hpat
    have hh := base_no_keyboard pat hpat
    simp [substrB_take hh.1, substrB_take hh.2]
  unfold pattern_penalty
  simp only [foldl_penalty_eq,
    show COMMON_PATTERNS.countP (fun m => m (baseChars.take L)) = 0 from by
      simp [COMMON_PATTERNS, List.countP_cons, h1, h2, h3, h4r, h5],
    if_neg (cyc_not_weak L h4),
    if_neg (show ¬ has_keyboard_pattern (baseChars.take L) = true from by simp [hk])]
  rw [max_eq_left (by norm_num)]
  norm_num

theorem cyc_charset_88 (L : Nat) (h4 : 4 ≤ L) :
    charset_size (baseChars.take L) = 88 := by
  have hmem : ∀ c ∈ patChars, c ∈ baseChars.take L := by
    intro c hc
    refine mem_take_of_le h4 ?_
    rw [baseChars_take4]
    exact hc
  have ha : (baseChars.take L).any isLowerC = true :=
    List.any_eq_true.mpr ⟨'a', hmem ('a') (by decide), by decide⟩
  have hb : (baseChars.take L).any isUpperC = true :=
    List.any_eq_true.mpr ⟨'B', hmem ('B') (by decide), by decide⟩
  have hc3 : (baseChars.take L).any isDigitC = true :=
    List.any_eq_true.mpr ⟨'3', hmem ('3') (by decide), by decide⟩
  have hd : (baseChars.take L).any (fun c => SYMBOLS_EXTENDED.contains c) = true :=
    List.any_eq_true.mpr ⟨'!', hmem ('!') (by decide), by decide⟩
  unfold charset_size
  rw [ha, hb, hc3, hd]
  decide

theorem logb_two_88 : (25 / 4 : ℝ) ≤ Real.logb 2 88 := by
  unfold Real.logb
  rw [le_div_iff (Real.log_pos (by norm_num))]
  have hle : ((2 : ℝ) ^ (25 : Nat)) ≤ ((88 : ℝ) ^ (4 : Nat)) := by norm_num
  have h2 := Real.log_le_log (by positivity) hle
  rw [Real.log_pow, Real.log_pow] at h2
  push_cast at h2
  linarith

theorem cyc_entropy_ge (L : Nat) (h8 : 8 ≤ L) (h128 : L ≤ 128) :
    (50 : ℝ) ≤ calculate_entropy (baseChars.take L) := by
  have hlen : (baseChars.take L).length = L := by
    rw [List.length_take, baseChars_len]
    omega
  have hne : baseChars.take L ≠ [] := by
    intro hnil
    rw [hnil] at hlen
    simp at hlen
    omega
  unfold calculate_entropy
  rw [if_neg hne, cyc_charset_88 L (by omega), cyc_penalty_one L (by omega)]
  rw [if_neg (by norm_num), hlen]
  rw [show ((1 : ℚ) : ℝ) = 1 from by norm_num, mul_one]
  have hlog := logb_two_88
  have hL : (8 : ℝ) ≤ (L : ℝ) := by exact_mod_cast h8
  have h50 : (50 : ℝ) = 8 * (25 / 4) := by norm_num
  rw [h50]
  have hcast : ((88 : Nat) : ℝ) = (88 : ℝ) := by norm_num
  rw [hcast]
  exact mul_le_mul hL hlog (by norm_num) (by positivity)

theorem c10_validate (n : Nat) (h4 : 4 ≤ n) (h128 : n < 128) :
    validate_password (baseChars.take (c10Len n))
      (resolve_policy none (some n) PasswordComplexity.standard) := by
  have hL1 : n + 1 ≤ c10Len n := le_max_left _ _
  have hL8 : 8 ≤ c10Len n := le_max_right _ _
  have hL128 : c10Len n ≤ 128 := by
    unfold c10Len
    omega
  have hlen : (baseChars.take (c10Len n)).length = c10Len n := by
    rw [List.length_take, baseChars_len]
    omega
  have hdec := take_decomp baseChars 4 (c10Len n) (by omega)
  have hcnt : ∀ p : Char → Bool, (patChars.countP p) ≤
      ((baseChars.take (c10Len n)).countP p) := by
    intro p
    rw [hdec, List.countP_append, baseChars_take4]
    omega
  refine ⟨⟨?_, ?_⟩, ?_, ?_, ?_, ?_, fun _ => cyc_no_sequential _,
    fun _ => cyc_no_repetitive _ _, fun _ => cyc_no_dictionary _ (by omega), ?_⟩
  · show n ≤ (baseChars.take (c10Len n)).length
    omega
  · show (baseChars.take (c10Len n)).length ≤ max n 128
    omega
  · show 1 ≤ (baseChars.take (c10Len n)).countP isUpperC
    have := hcnt isUpperC
    have hp : patChars.countP isUpperC = 1 := by decide
    omega
  · show 1 ≤ (baseChars.take (c10Len n)).countP isLowerC
    have := hcnt isLowerC
    have hp : patChars.countP isLowerC = 1 := by decide
    omega
  · show 1 ≤ (baseChars.take (c10Len n)).countP isDigitC
    have := hcnt isDigitC
    have hp : patChars.countP isDigitC = 1 := by decide
    omega
  · show 1 ≤ (baseChars.take (c10Len n)).countP (fun c => SYMBOLS_EXTENDED.contains c)
    have := hcnt (fun c => SYMBOLS_EXTENDED.contains c)
    have hp : patChars.countP (fun c => SYMBOLS_EXTENDED.contains c) = 1 := by decide
    omega
  · show ((50 : ℚ) : ℝ) ≤ calculate_entropy (baseChars.take (c10Len n))
    rw [show ((50 : ℚ) : ℝ) = (50 : ℝ) from by norm_num]
    exact cyc_entropy_ge (c10Len n) hL8 hL128

/-- Claim C10 counterexample: for n = 2 (a value below the default per-class
minimum total), no execution of the module-level generate_password(length=2)
returns a string at all — the overridden policy is infeasible — refuting the
claim's "for every n < 128 some executions return a string strictly longer
than n". -/
theorem c10_counterexample :
    ¬ ∃ (tape : List Nat) (s : List Char),
      module_generate_password 2 tape (Except.ok s) := by
  rintro ⟨tape, s, h⟩
  unfold module_generate_password GeneratePassword at h
  rw [if_pos (by decide)] at h
  simp at h

/-- Claim C10 (amended): for every n with 4 <= n < 128 there are executions of
generate_password(length=n) that return a string strictly longer than n (the
explicit tape c10Tape n produces one of length max(n+1, 8)); for n < 4 no
execution returns at all (the resolved policy is infeasible); and for every n,
every execution that returns a string returns one whose length lies in
[n, max(n, 128)]. -/
theorem c10_length_semantics (n : Nat) :
    (4 ≤ n → n < 128 →
      GeneratePassword none (some n) PasswordComplexity.standard (c10Tape n)
        (Except.ok (baseChars.take (c10Len n))) ∧
      n < (baseChars.take (c10Len n)).length) ∧
    (∀ (tape : List Nat) (s : List Char),
      GeneratePassword none (some n) PasswordComplexity.standard tape (Except.ok s) →
      n ≤ s.length ∧ s.length ≤ max n 128) := by
  constructor
  · intro h4 h128
    have hL1 : n + 1 ≤ c10Len n := le_max_left _ _
    have hL128 : c10Len n ≤ 128 := by
      unfold c10Len
      omega
    constructor
    · unfold GeneratePassword
      rw [if_neg (show ¬ (resolve_policy none (some n)
          PasswordComplexity.standard).min_length <
          sum_minimums (resolve_policy none (some n) PasswordComplexity.standard) from by
        show ¬ n < 4
        omega)]
      refine RunAttempts.accept 999 _ _ ?_ (c10_validate n h4 h128)
      rw [c10_candidate n h4 h128]
    · rw [List.length_take, baseChars_len]
      omega
  · intro tape s h
    unfold GeneratePassword at h
    by_cases hc : (resolve_policy none (some n) PasswordComplexity.standard).min_length <
        sum_minimums (resolve_policy none (some n) PasswordComplexity.standard)
    · rw [if_pos hc] at h
      simp at h
    · rw [if_neg hc] at h
      have hv := RunAttempts_ok_validates h s rfl
      exact ⟨hv.1.1, hv.1.2⟩

theorem c10_length_semantics_witness :
    GeneratePassword none (some 12) PasswordComplexity.standard (c10Tape 12)
      (Except.ok (baseChars.take (c10Len 12))) ∧
    12 < (baseChars.take (c10Len 12)).length :=
  (c10_length_semantics 12).1 (by norm_num) (by norm_num)

theorem bigChars_penalty_one : pattern_penalty bigChars = 1 := by
  unfold pattern_penalty
  simp only [foldl_penalty_eq,
    show COMMON_PATTERNS.countP (fun m => m bigChars) = 0 from by
      simp [COMMON_PATTERNS, List.countP_cons,
        (by decide : regexRepeatCI bigChars = false),
        (by decide : regexSeqChunk bigChars = false),
        (by decide : regexCommonWords bigChars = false),
        (by decide : regexYear bigChars = false),
        (by decide : regexLongDigits bigChars = false)],
    if_neg (by decide : ¬ toLowerStr bigChars ∈ WEAK_PASSWORDS),
    if_neg (show ¬ has_keyboard_pattern bigChars = true from by
      simp [(by decide : has_keyboard_pattern bigChars = false)])]
  rw [max_eq_left (by norm_num)]
  norm_num

theorem bigChars_entropy : (1200 : ℝ) ≤ calculate_entropy bigChars := by
  unfold calculate_entropy
  rw [if_neg (by decide : ¬ bigChars = ([] : List Char))]
  rw [(by decide : charset_size bigChars = 88)]
  rw [bigChars_penalty_one]
  rw [if_neg (by norm_num)]
  rw [(by decide : bigChars.length = 192)]
  rw [show ((1 : ℚ) : ℝ) = 1 from by norm_num, mul_one]
  rw [show ((88 : Nat) : ℝ) = (88 : ℝ) from by norm_num]
  rw [show ((192 : Nat) : ℝ) = (192 : ℝ) from by norm_num]
  rw [show (1200 : ℝ) = 192 * (25 / 4) from by norm_num]
  exact mul_le_mul_of_nonneg_left logb_two_88 (by norm_num)

theorem bigChars_entropy_pos : 0 < calculate_entropy bigChars :=
  lt_of_lt_of_le (by norm_num) bigChars_entropy

theorem bigChars_overflow : maxDouble < (2 : ℝ) ^ calculate_entropy bigChars := by
  have h1 : maxDouble < (2 : ℝ) ^ (1024 : Nat) := by
    unfold maxDouble
    have h : (0 : ℝ) < (2 : ℝ) ^ (971 : Nat) := by positivity
    linarith
  have h2 : ((2 : ℝ) ^ (1024 : Nat) : ℝ) = (2 : ℝ) ^ ((1024 : Nat) : ℝ) :=
    (Real.rpow_natCast 2 1024).symm
  have h3 : (2 : ℝ) ^ ((1024 : Nat) : ℝ) ≤ (2 : ℝ) ^ calculate_entropy bigChars := by
    refine Real.rpow_le_rpow_of_exponent_le (by norm_num) ?_
    have hb := bigChars_entropy
    push_cast
    linarith
  linarith [h2 ▸ h3]

theorem bigChars_run_error (ext : Externals) (now : ℝ) (policyArg : Option PasswordPolicy) :
    analyze_password_run ext now bigChars policyArg =
      Except.error ("OverflowError: math range error") := by
  unfold analyze_password_run estimate_crack_time
  rw [if_neg (not_le.mpr bigChars_entropy_pos), if_pos bigChars_overflow]

/-- Claim C4 counterexample: for the empty string the strength_score field of
the analysis is 10 (the unpenalized pattern term contributes 1.0 * 10), not 0;
and the analysis is not raise-free either: on the 192-character pattern-free
string bigChars (entropy 192 * log2 88 > 1024) the crack-time float
exponentiation overflows and the call raises an uncaught OverflowError. -/
theorem c4_counterexample :
    ((analyze_password extTrivial 0 [] none).strength_score = 10 ∧ (10 : ℝ) ≠ 0) ∧
    analyze_password_run extTrivial 0 bigChars none =
      Except.error ("OverflowError: math range error") :=
  ⟨⟨strength_score_empty, by norm_num⟩, bigChars_run_error extTrivial 0 none⟩

/-- Claim C4 (amended): analyze_password returns an analysis value (entropy
field = calculate_entropy, time_to_crack field = the dictionary
_estimate_crack_time produced) whenever the crack-time computation stays within
the float range; it raises an uncaught OverflowError when the entropy is
positive and 2^entropy exceeds the largest finite double (reachable, e.g. for
long pattern-free strings); for the empty string it returns, with entropy 0
and strength_score 10 (not 0 as originally claimed). -/
theorem c4_amended (ext : Externals) (now : ℝ) (password : List Char)
    (policyArg : Option PasswordPolicy) :
    (analyze_password ext now password policyArg).entropy = calculate_entropy password ∧
    ((calculate_entropy password ≤ 0 ∨
        (2 : ℝ) ^ calculate_entropy password ≤ maxDouble) →
      analyze_password_run ext now password policyArg =
        Except.ok (analyze_password ext now password policyArg)) ∧
    ((0 < calculate_entropy password ∧
        maxDouble < (2 : ℝ) ^ calculate_entropy password) →
      analyze_password_run ext now password policyArg =
        Except.error ("OverflowError: math range error")) ∧
    (∀ l, estimate_crack_time ext (calculate_entropy password) = Except.ok l →
      (analyze_password ext now password policyArg).time_to_crack = l) ∧
    (password = [] →
      analyze_password_run ext now password policyArg =
        Except.ok (analyze_password ext now password policyArg) ∧
      (analyze_password ext now password policyArg).entropy = 0 ∧
      (analyze_password ext now password policyArg).strength_score = 10) := by
  have hok : (calculate_entropy password ≤ 0 ∨
      (2 : ℝ) ^ calculate_entropy password ≤ maxDouble) →
      analyze_password_run ext now password policyArg =
        Except.ok (analyze_password ext now password policyArg) := by
    intro h
    unfold analyze_password_run estimate_crack_time
    rcases h with h | h
    · rw [if_pos h]
    · by_cases h0 : calculate_entropy password ≤ 0
      · rw [if_pos h0]
      · rw [if_neg h0, if_neg (not_lt.mpr h)]
  refine ⟨rfl, hok, ?_, ?_, ?_⟩
  · rintro ⟨hpos, hover⟩
    unfold analyze_password_run estimate_crack_time
    rw [if_neg (not_le.mpr hpos), if_pos hover]
  · intro l hl
    unfold estimate_crack_time at hl
    show crack_time_table ext (calculate_entropy password) = l
    unfold crack_time_table
    by_cases h0 : calculate_entropy password ≤ 0
    · rw [if_pos h0] at hl ⊢
      simpa using hl
    · rw [if_neg h0] at hl ⊢
      by_cases hov : maxDouble < (2 : ℝ) ^ calculate_entropy password
      · rw [if_pos hov] at hl
        cases hl
      · rw [if_neg hov] at hl
        simpa using hl
  · rintro rfl
    have hent0 : calculate_entropy [] = 0 := by
      unfold calculate_entropy
      rw [if_pos rfl]
    exact ⟨hok (Or.inl (le_of_eq hent0)), hent0, strength_score_empty⟩

theorem c4_amended_witness :
    analyze_password_run extTrivial 0 [] none =
      Except.ok (analyze_password extTrivial 0 [] none) ∧
    (analyze_password extTrivial 0 [] none).entropy = 0 ∧
    (analyze_password extTrivial 0 [] none).strength_score = 10 ∧
    analyze_password_run extTrivial 0 bigChars none =
      Except.error ("OverflowError: math range error") := by
  refine ⟨?_, ?_, ?_, ?_⟩
  · exact ((c4_amended extTrivial 0 [] none).2.2.2.2 rfl).1
  · exact ((c4_amended extTrivial 0 [] none).2.2.2.2 rfl).2.1
  · exact ((c4_amended extTrivial 0 [] none).2.2.2.2 rfl).2.2
  · exact (c4_amended extTrivial 0 bigChars none).2.2.1
      ⟨bigChars_entropy_pos, bigChars_overflow⟩

end GenPass
